import Mathlib

/-!
# Proportional Rate Reduction recovery (ns-3 `PrrRecovery`, `ClassicRecovery`)

A shallow embedding of `src/internet/model/tcp-prr-recovery.{h,cc}` and
`src/internet/model/tcp-recovery-ops.{h,cc}`.

* `uint32_t` values are natural numbers below `2^32`; every `uint32_t` operation of the
  source is written with its reduction modulo `2^32`.
* `int` values are integers in `[-2^31, 2^31)`; a conversion to `int` is `toInt32`.
* The objects are passed explicitly: a method of `PrrRecovery` takes the policy object and
  the `TcpSocketState` it points to and returns the updated pair.
-/

namespace PrrModel

/-! ## Machine arithmetic -/

/-- Predicate: the natural number is a value of the type `uint32_t`. -/
abbrev IsU32 (n : Nat) : Prop := n < 4294967296

/-- Conversion of an integer to `uint32_t`: reduction modulo `2^32`. -/
def toUInt32 (z : Int) : Nat := (z % 4294967296).toNat

/-- Conversion of an integer to the 32-bit two's-complement `int`. -/
def toInt32 (z : Int) : Int := (z + 2147483648) % 4294967296 - 2147483648

/-- Sum of two `uint32_t` values, in `uint32_t`. -/
def u32add (a b : Nat) : Nat := (a + b) % 4294967296

/-- Difference of two `uint32_t` values, in `uint32_t`. -/
def u32sub (a b : Nat) : Nat := toUInt32 ((a : Int) - (b : Int))

/-- Product of two `uint32_t` values, in `uint32_t`. -/
def u32mul (a b : Nat) : Nat := (a * b) % 4294967296

/-- Sum of a `uint32_t` and an `int`: the usual arithmetic conversions turn the `int`
operand into `uint32_t`, so the sum is a `uint32_t`. -/
def u32addInt (a : Nat) (i : Int) : Nat := toUInt32 ((a : Int) + i)

/-- The values of type `double` that the expression of line 116 of `tcp-prr-recovery.cc`
can take: an integer-valued double, plus infinity (a positive value divided by zero) or a
NaN (zero divided by zero). -/
inductive Dbl where
  | finite (z : Int)
  | inf
  | nan
  deriving DecidableEq

/-- The double `std::ceil (prod * 1.0 / rfs)` for `uint32_t` values `prod` and `rfs`.
For `rfs > 0` both operands convert to `double` exactly and the rounding error of their
IEEE-754 quotient is below `2^-20 / rfs`, while an exact quotient that is not an integer is
at least `1 / rfs` away from every integer: the ceiling of the rounded quotient is the exact
ceiling `(prod + rfs - 1) / rfs`. -/
def ceilQuotient (prod rfs : Nat) : Dbl :=
  if rfs = 0 then (if prod = 0 then Dbl.nan else Dbl.inf)
  else Dbl.finite (((prod + rfs - 1) / rfs : Nat) : Int)

/-- The double `d - n` for a `uint32_t` value `n` (exact on integers below `2^53`). -/
def Dbl.subU32 (d : Dbl) (n : Nat) : Dbl :=
  match d with
  | Dbl.finite z => Dbl.finite (z - (n : Int))
  | Dbl.inf => Dbl.inf
  | Dbl.nan => Dbl.nan

/-- Conversion of a double to `int` (the initialisation of `int sendCount` on line 116).
A value inside the range of `int` converts to itself.  For a value outside that range, an
infinity or a NaN the C++ standard defines no result: `ub` is what the platform at hand
produces there, narrowed to an `int`. -/
def doubleToInt (ub : Dbl → Int) (d : Dbl) : Int :=
  match d with
  | Dbl.finite z => if -2147483648 ≤ z ∧ z ≤ 2147483647 then z else toInt32 (ub d)
  | Dbl.inf => toInt32 (ub d)
  | Dbl.nan => toInt32 (ub d)

/-- One concrete platform: the x86-64 instruction `cvttsd2si` answers every conversion that
is out of range with the "integer indefinite" value `INT_MIN`. -/
def x86Indefinite : Dbl → Int := fun _ => -2147483648

/-! ## Data model -/

/-- The enumeration `PrrRecovery::ReductionBound_t` (`tcp-prr-recovery.h`, lines 65-69). -/
inductive ReductionBound_t where
  | CRB
  | SSRB
  deriving DecidableEq

/-- Modelled from the spec: the class `TcpSocketState` (declared in `tcp-socket-base.h`,
which is not among the sources).  The spec lists its fields as
`{cwnd, ssthresh, bytesInFlight, segmentSize, cwndInflated}`, all unsigned byte counts; the
field names are the ones `tcp-prr-recovery.cc` uses.  Each field is read and written as a
plain `uint32_t`. -/
structure TcpSocketState where
  m_cWnd : Nat
  m_cWndInfl : Nat
  m_ssThresh : Nat
  m_bytesInFlight : Nat
  m_segmentSize : Nat
  deriving DecidableEq

/-- Every field of the congestion state is a `uint32_t`. -/
abbrev TcpSocketState.valid (tcb : TcpSocketState) : Prop :=
  IsU32 tcb.m_cWnd ∧ IsU32 tcb.m_cWndInfl ∧ IsU32 tcb.m_ssThresh ∧
    IsU32 tcb.m_bytesInFlight ∧ IsU32 tcb.m_segmentSize

/-- The data members of `PrrRecovery` (`tcp-prr-recovery.h`, lines 86-92). -/
structure PrrRecovery where
  m_prrDelivered : Nat
  m_prrOut : Nat
  m_recoveryFlightSize : Nat
  m_isSackEnabled : Bool
  m_dupAckCount : Nat
  m_previousSackedBytes : Nat
  m_reductionBoundMode : ReductionBound_t
  deriving DecidableEq

/-- Every counter of the policy is a `uint32_t`. -/
abbrev PrrRecovery.valid (self : PrrRecovery) : Prop :=
  IsU32 self.m_prrDelivered ∧ IsU32 self.m_prrOut ∧ IsU32 self.m_recoveryFlightSize ∧
    IsU32 self.m_dupAckCount ∧ IsU32 self.m_previousSackedBytes

/-- How a call ends: it returns with the state `s`, or `NS_ASSERT_MSG` stops the program
and `s` is the state at that moment. -/
inductive Outcome (σ : Type) where
  | returned (s : σ)
  | aborted (s : σ)
  deriving DecidableEq

/-- The state at the end of a call, whichever way it ended. -/
def Outcome.state {σ : Type} (o : Outcome σ) : σ :=
  match o with
  | Outcome.returned s => s
  | Outcome.aborted s => s

/-- Modelled from the spec: the macro `NS_ASSERT_MSG` (declared in `ns3/assert.h`, which is
not among the sources).  The spec calls a violated precondition a fatal error: when the
condition is false the call stops at the assertion, otherwise the rest `k` of the body
runs. -/
def NS_ASSERT_MSG {σ : Type} (condition : Bool) (s : σ) (k : σ → σ) : Outcome σ :=
  if condition then Outcome.returned (k s) else Outcome.aborted s

/-! ## `PrrRecovery` -/

/-- The default member initialisers of `tcp-prr-recovery.h`, lines 86-92, as left by the
constructor `PrrRecovery::PrrRecovery (void)` (`tcp-prr-recovery.cc`, lines 49-53). -/
def PrrRecovery.init : PrrRecovery :=
  { m_prrDelivered := 0
    m_prrOut := 0
    m_recoveryFlightSize := 0
    m_isSackEnabled := true
    m_dupAckCount := 0
    m_previousSackedBytes := 0
    m_reductionBoundMode := ReductionBound_t.CRB }

/-- The initial value `EnumValue (SSRB)` that `PrrRecovery::GetTypeId` registers for the
attribute `ReductionBound` (`tcp-prr-recovery.cc`, lines 40-44). -/
def reductionBoundAttributeDefault : ReductionBound_t := ReductionBound_t.SSRB

/-- Modelled from the spec: the construction of a policy object through the attribute
system (`CreateObject`, `ObjectBase::ConstructSelf`; ns-3 core, not among the sources).
The spec calls `reductionBoundMode` a configuration fixed at construction with the default
`SlowStartReductionBound`: the constructor runs, then the attribute `ReductionBound`
receives the configured value, or its registered initial value when nothing is
configured. -/
def CreateObject (configured : Option ReductionBound_t) : PrrRecovery :=
  { PrrRecovery.init with
    m_reductionBoundMode := configured.getD reductionBoundAttributeDefault }

/-- The copy constructor `PrrRecovery::PrrRecovery (const PrrRecovery&)`
(`tcp-prr-recovery.cc`, lines 55-66): member by member. -/
def PrrRecovery.copy (recovery : PrrRecovery) : PrrRecovery :=
  { m_prrDelivered := recovery.m_prrDelivered
    m_prrOut := recovery.m_prrOut
    m_recoveryFlightSize := recovery.m_recoveryFlightSize
    m_isSackEnabled := recovery.m_isSackEnabled
    m_dupAckCount := recovery.m_dupAckCount
    m_previousSackedBytes := recovery.m_previousSackedBytes
    m_reductionBoundMode := recovery.m_reductionBoundMode }

/-- Modelled from the spec: the template `CopyObject` (ns-3 core, not among the sources).
The spec describes `Fork` as a value copy of the whole instance into a new, independently
owned instance: `CopyObject` allocates a new object and initialises it with the copy
constructor. -/
def CopyObject (object : PrrRecovery) : PrrRecovery :=
  PrrRecovery.copy object

/-- The method `PrrRecovery::Fork` (`tcp-prr-recovery.cc`, lines 151-155): the original,
untouched, and the new object made by the copy constructor. -/
def PrrRecovery.Fork (self : PrrRecovery) : PrrRecovery × PrrRecovery :=
  (self, CopyObject self)

/-- The value of `lastDeliveredBytes` after lines 91-111 of `tcp-prr-recovery.cc`.
On line 95 the operands of `lastAckedBytes + changeInSackedBytes` are a `uint32_t` and an
`int`, so the sum and the comparison with `0` are unsigned. -/
def PrrRecovery.lastDeliveredBytes (self : PrrRecovery) (tcb : TcpSocketState)
    (lastAckedBytes lastSackedBytes : Nat) (isDupack : Bool) : Nat :=
  if self.m_isSackEnabled then
    let changeInSackedBytes : Int := toInt32 (u32sub lastSackedBytes self.m_previousSackedBytes)
    if u32addInt lastAckedBytes changeInSackedBytes > 0
    then u32addInt lastAckedBytes changeInSackedBytes
    else 0
  else
    if isDupack then
      tcb.m_segmentSize
    else
      let bytesAcked : Nat := u32mul self.m_dupAckCount tcb.m_segmentSize
      if lastAckedBytes > bytesAcked then lastAckedBytes - bytesAcked else 0

/-- The policy object after lines 91-112 of `tcp-prr-recovery.cc`: `m_previousSackedBytes`
(line 96) or `m_dupAckCount` (lines 103, 109) is updated, then line 112 adds
`lastDeliveredBytes` to `m_prrDelivered`. -/
def PrrRecovery.afterDelivered (self : PrrRecovery) (tcb : TcpSocketState)
    (lastAckedBytes lastSackedBytes : Nat) (isDupack : Bool) : PrrRecovery :=
  let lastDeliveredBytes := self.lastDeliveredBytes tcb lastAckedBytes lastSackedBytes isDupack
  let self1 : PrrRecovery :=
    if self.m_isSackEnabled then
      { self with m_previousSackedBytes := lastSackedBytes }
    else
      if isDupack then
        { self with m_dupAckCount := u32add self.m_dupAckCount 1 }
      else
        { self with m_dupAckCount := 0 }
  { self1 with m_prrDelivered := u32add self1.m_prrDelivered lastDeliveredBytes }

/-- The value of `limit` after lines 120-128 of `tcp-prr-recovery.cc`, read on the policy
object as it is after line 112.  Line 123 converts the `uint32_t` difference to `int`; on
line 127 `std::max` compares two `uint32_t` values and the sum with `m_segmentSize` is a
`uint32_t`, converted to `int` by the assignment. -/
def PrrRecovery.limit (self : PrrRecovery) (tcb : TcpSocketState) (lastDeliveredBytes : Nat) :
    Int :=
  match self.m_reductionBoundMode with
  | ReductionBound_t.CRB => toInt32 (u32sub self.m_prrDelivered self.m_prrOut)
  | ReductionBound_t.SSRB =>
      toInt32 (u32add (max (u32sub self.m_prrDelivered self.m_prrOut) lastDeliveredBytes)
        tcb.m_segmentSize)

/-- The value of `sendCount` after lines 113-130 of `tcp-prr-recovery.cc` (before the
forced retransmit of line 133), read on the policy object as it is after line 112.
On line 116 the product `m_prrDelivered * tcb->m_ssThresh` is formed first, between two
`uint32_t` values, and only that product is multiplied by `1.0`. -/
def PrrRecovery.sendCount (ub : Dbl → Int) (self : PrrRecovery) (tcb : TcpSocketState)
    (lastDeliveredBytes : Nat) : Int :=
  if tcb.m_bytesInFlight > tcb.m_ssThresh then
    doubleToInt ub
      ((ceilQuotient (u32mul self.m_prrDelivered tcb.m_ssThresh)
        self.m_recoveryFlightSize).subU32 self.m_prrOut)
  else
    let limit : Int := self.limit tcb lastDeliveredBytes
    min limit (toInt32 (u32sub tcb.m_ssThresh tcb.m_bytesInFlight))

/-- The value of `sendCount` after line 133 of `tcp-prr-recovery.cc`: at least one segment
while `m_prrOut` is zero. -/
def PrrRecovery.forcedSendCount (ub : Dbl → Int) (self : PrrRecovery) (tcb : TcpSocketState)
    (lastDeliveredBytes : Nat) : Int :=
  max (self.sendCount ub tcb lastDeliveredBytes)
    (if self.m_prrOut ≠ 0 then 0 else toInt32 tcb.m_segmentSize)

/-- The method `PrrRecovery::DoRecovery` (`tcp-prr-recovery.cc`, lines 87-136). -/
def PrrRecovery.DoRecovery (ub : Dbl → Int) (self : PrrRecovery) (tcb : TcpSocketState)
    (lastAckedBytes lastSackedBytes : Nat) (isDupack : Bool) : PrrRecovery × TcpSocketState :=
  let lastDeliveredBytes := self.lastDeliveredBytes tcb lastAckedBytes lastSackedBytes isDupack
  let self1 := self.afterDelivered tcb lastAckedBytes lastSackedBytes isDupack
  let sendCount : Int := self1.forcedSendCount ub tcb lastDeliveredBytes
  let cWnd : Nat := u32addInt tcb.m_bytesInFlight sendCount
  (self1, { tcb with m_cWnd := cWnd, m_cWndInfl := cWnd })

/-- The method `PrrRecovery::EnterRecovery` (`tcp-prr-recovery.cc`, lines 73-85).  The
argument `dupAckCount` is not used by the body. -/
def PrrRecovery.EnterRecovery (ub : Dbl → Int) (self : PrrRecovery) (tcb : TcpSocketState)
    (_dupAckCount : Nat) (isSackEnabled : Bool) (unAckDataCount : Nat) :
    Outcome (PrrRecovery × TcpSocketState) :=
  NS_ASSERT_MSG (isSackEnabled == true) (self, tcb) fun s =>
    let self1 : PrrRecovery :=
      { s.1 with
        m_prrOut := 0
        m_prrDelivered := 0
        m_isSackEnabled := isSackEnabled
        m_recoveryFlightSize := unAckDataCount }
    self1.DoRecovery ub s.2 0 0 false

/-- The method `PrrRecovery::ExitRecovery` (`tcp-prr-recovery.cc`, lines 138-143). -/
def PrrRecovery.ExitRecovery (self : PrrRecovery) (tcb : TcpSocketState) :
    PrrRecovery × TcpSocketState :=
  (self, { tcb with m_cWnd := tcb.m_ssThresh, m_cWndInfl := tcb.m_ssThresh })

/-- The method `PrrRecovery::UpdateBytesSent` (`tcp-prr-recovery.cc`, lines 145-149). -/
def PrrRecovery.UpdateBytesSent (self : PrrRecovery) (bytesSent : Nat) : PrrRecovery :=
  { self with m_prrOut := u32add self.m_prrOut bytesSent }

/-! ## `ClassicRecovery` -/

/-- The method `ClassicRecovery::EnterRecovery` (`tcp-recovery-ops.cc`, lines 86-90). -/
def ClassicRecovery.EnterRecovery (tcb : TcpSocketState) : TcpSocketState :=
  { tcb with m_cWnd := tcb.m_ssThresh }

/-- The method `ClassicRecovery::DoRecovery` (`tcp-recovery-ops.cc`, lines 92-95): it has
no argument and an empty body, so the congestion state of the caller is as before. -/
def ClassicRecovery.DoRecovery (tcb : TcpSocketState) : TcpSocketState := tcb

/-- The method `ClassicRecovery::ExitRecovery` (`tcp-recovery-ops.cc`, lines 97-100): it
has no argument and an empty body, so the congestion state of the caller is as before. -/
def ClassicRecovery.ExitRecovery (tcb : TcpSocketState) : TcpSocketState := tcb

/-! ## Recovery episodes -/

/-- What the connection does to the policy between `EnterRecovery` and `ExitRecovery`: a
call of `DoRecovery` on the congestion state as it is at that moment, or a call of
`UpdateBytesSent`. -/
inductive Call where
  | doRecovery (tcb : TcpSocketState) (lastAckedBytes lastSackedBytes : Nat) (isDupack : Bool)
  | updateBytesSent (bytesSent : Nat)

/-- Every argument of the call is a `uint32_t`. -/
abbrev Call.valid (c : Call) : Prop :=
  match c with
  | Call.doRecovery tcb lastAckedBytes lastSackedBytes _ =>
      tcb.valid ∧ IsU32 lastAckedBytes ∧ IsU32 lastSackedBytes
  | Call.updateBytesSent bytesSent => IsU32 bytesSent

/-- The policy object after one call. -/
def Call.apply (ub : Dbl → Int) (self : PrrRecovery) (c : Call) : PrrRecovery :=
  match c with
  | Call.doRecovery tcb lastAckedBytes lastSackedBytes isDupack =>
      (self.DoRecovery ub tcb lastAckedBytes lastSackedBytes isDupack).1
  | Call.updateBytesSent bytesSent => self.UpdateBytesSent bytesSent

/-- The policy object after a sequence of calls, first call first. -/
def runCalls (ub : Dbl → Int) (self : PrrRecovery) (calls : List Call) : PrrRecovery :=
  calls.foldl (Call.apply ub) self

/-- A call of one of the five operations of the policy, with its arguments. -/
inductive Op where
  | enterRecovery (tcb : TcpSocketState) (dupAckCount : Nat) (isSackEnabled : Bool)
      (unAckDataCount : Nat)
  | doRecovery (tcb : TcpSocketState) (lastAckedBytes lastSackedBytes : Nat) (isDupack : Bool)
  | exitRecovery (tcb : TcpSocketState)
  | updateBytesSent (bytesSent : Nat)
  | fork

/-- The policy object after one operation.  Only `EnterRecovery` can stop at its
assertion.  After `Fork` the run goes on with the new object. -/
def Op.run (ub : Dbl → Int) (self : PrrRecovery) (op : Op) : Outcome PrrRecovery :=
  match op with
  | Op.enterRecovery tcb dupAckCount isSackEnabled unAckDataCount =>
      match self.EnterRecovery ub tcb dupAckCount isSackEnabled unAckDataCount with
      | Outcome.returned s => Outcome.returned s.1
      | Outcome.aborted s => Outcome.aborted s.1
  | Op.doRecovery tcb lastAckedBytes lastSackedBytes isDupack =>
      Outcome.returned (self.DoRecovery ub tcb lastAckedBytes lastSackedBytes isDupack).1
  | Op.exitRecovery tcb => Outcome.returned (self.ExitRecovery tcb).1
  | Op.updateBytesSent bytesSent => Outcome.returned (self.UpdateBytesSent bytesSent)
  | Op.fork => Outcome.returned self.Fork.2

/-- The policy object after a sequence of operations, first operation first; the run ends
at the first operation that stops at its assertion. -/
def runOps (ub : Dbl → Int) (self : PrrRecovery) (ops : List Op) : Outcome PrrRecovery :=
  match ops with
  | [] => Outcome.returned self
  | op :: rest =>
      match op.run ub self with
      | Outcome.returned s => runOps ub s rest
      | Outcome.aborted s => Outcome.aborted s

/-- Modelled from the spec: the address of a policy object, the value of a
`Ptr<PrrRecovery>` (the smart pointer of ns-3 core is not among the sources). -/
abbrev Ptr := Nat

/-- The policy objects that exist in the program, each at its address: the object at
address `p` is the entry `p` of the list. -/
structure Heap where
  cells : List PrrRecovery
  deriving DecidableEq

/-- The object a pointer refers to, if the address is allocated. -/
def Heap.read (h : Heap) (p : Ptr) : Option PrrRecovery := h.cells[p]?

/-- Modelled from the spec: the template `CopyObject` on objects in memory (ns-3 core, not
among the sources).  The spec describes `Fork` as a copy of all counters and configuration
into a new, independently owned instance: `CopyObject` allocates a new object at an address
not in use, initialises it with the copy constructor from the object pointed to, and
returns the new address. -/
def Heap.CopyObject (h : Heap) (object : Ptr) : Option (Heap × Ptr) :=
  match h.read object with
  | some v => some ({ cells := h.cells ++ [PrrRecovery.copy v] }, h.cells.length)
  | none => none

/-- The method `PrrRecovery::Fork` (`tcp-prr-recovery.cc`, lines 151-155) on objects in
memory: `return CopyObject<PrrRecovery> (this)`. -/
def Heap.Fork (h : Heap) (this : Ptr) : Option (Heap × Ptr) :=
  h.CopyObject this

/-- A call of an operation through a pointer: the method runs on the object at the address
`this` and its assignments to `m_...` members are written back to that address; `Fork`
allocates a new object and the caller drops the returned pointer.  A call through a
pointer to no object changes nothing. -/
def Heap.call (ub : Dbl → Int) (h : Heap) (this : Ptr) (op : Op) : Outcome Heap :=
  match h.read this with
  | none => Outcome.returned h
  | some self =>
    match op with
    | Op.enterRecovery tcb dupAckCount isSackEnabled unAckDataCount =>
        match self.EnterRecovery ub tcb dupAckCount isSackEnabled unAckDataCount with
        | Outcome.returned s => Outcome.returned { cells := h.cells.set this s.1 }
        | Outcome.aborted s => Outcome.aborted { cells := h.cells.set this s.1 }
    | Op.doRecovery tcb lastAckedBytes lastSackedBytes isDupack =>
        Outcome.returned
          { cells := h.cells.set this
              (self.DoRecovery ub tcb lastAckedBytes lastSackedBytes isDupack).1 }
    | Op.exitRecovery tcb =>
        Outcome.returned { cells := h.cells.set this (self.ExitRecovery tcb).1 }
    | Op.updateBytesSent bytesSent =>
        Outcome.returned { cells := h.cells.set this (self.UpdateBytesSent bytesSent) }
    | Op.fork =>
        match h.Fork this with
        | some r => Outcome.returned r.1
        | none => Outcome.returned h

/-- A sequence of operations called through the same pointer, first operation first; the
run ends at the first operation that stops at its assertion. -/
def Heap.runOn (ub : Dbl → Int) (h : Heap) (this : Ptr) (ops : List Op) : Outcome Heap :=
  match ops with
  | [] => Outcome.returned h
  | op :: rest =>
      match h.call ub this op with
      | Outcome.returned h1 => Heap.runOn ub h1 this rest
      | Outcome.aborted h1 => Outcome.aborted h1

/-- The call is a `DoRecovery` call for a duplicate ack on a congestion state whose segment
size is `segmentSize`. -/
abbrev Call.isDupAckWith (segmentSize : Nat) (c : Call) : Prop :=
  match c with
  | Call.doRecovery tcb _ _ isDupack => isDupack = true ∧ tcb.m_segmentSize = segmentSize
  | Call.updateBytesSent _ => False

/-! ## Concrete inputs -/

/-- The congestion state of the concrete scenario of the spec: `segmentSize = 1460`,
`ssthresh = 14600` (10 segments), `bytesInFlight = 21900` (15 segments). -/
def scenarioTcb : TcpSocketState :=
  { m_cWnd := 21900
    m_cWndInfl := 21900
    m_ssThresh := 14600
    m_bytesInFlight := 21900
    m_segmentSize := 1460 }

/-- The policy object at the end of a first recovery episode: `EnterRecovery` on a new
object, then one ack that reports 1460 sacked bytes (`ExitRecovery` does not touch the
policy object). -/
def firstEpisode (ub : Dbl → Int) : PrrRecovery :=
  match PrrRecovery.EnterRecovery ub PrrRecovery.init scenarioTcb 3 true 21900 with
  | Outcome.returned s => (s.1.DoRecovery ub scenarioTcb 0 1460 false).1
  | Outcome.aborted s => s.1

/-- A policy object in SACK mode in the middle of an episode: 5000 bytes delivered so far,
1000 bytes sacked at the previous ack. -/
def midEpisode : PrrRecovery :=
  { m_prrDelivered := 5000
    m_prrOut := 1460
    m_recoveryFlightSize := 21900
    m_isSackEnabled := true
    m_dupAckCount := 0
    m_previousSackedBytes := 1000
    m_reductionBoundMode := ReductionBound_t.SSRB }

/-- The policy object right after `EnterRecovery` on a new object in the scenario of the
spec: no byte delivered or sent yet, 21900 bytes outstanding when the episode began. -/
def episodeStart : PrrRecovery :=
  { m_prrDelivered := 0
    m_prrOut := 0
    m_recoveryFlightSize := 21900
    m_isSackEnabled := true
    m_dupAckCount := 0
    m_previousSackedBytes := 0
    m_reductionBoundMode := ReductionBound_t.CRB }

/-- A congestion state above its target with a window of about a hundred segments:
`ssthresh = 75000`, `bytesInFlight = 119200`, `segmentSize = 1460`. -/
def largeTcb : TcpSocketState :=
  { m_cWnd := 119200
    m_cWndInfl := 119200
    m_ssThresh := 75000
    m_bytesInFlight := 119200
    m_segmentSize := 1460 }

/-- A policy object in the episode of `largeTcb`: 150000 bytes were outstanding at the
start, 58540 bytes are delivered and 29200 bytes sent so far. -/
def largeEpisode : PrrRecovery :=
  { m_prrDelivered := 58540
    m_prrOut := 29200
    m_recoveryFlightSize := 150000
    m_isSackEnabled := true
    m_dupAckCount := 0
    m_previousSackedBytes := 0
    m_reductionBoundMode := ReductionBound_t.SSRB }

/-- A congestion state below its target: `ssthresh = 14600`, `bytesInFlight = 10000`,
`segmentSize = 1460`. -/
def belowTcb : TcpSocketState :=
  { m_cWnd := 10000
    m_cWndInfl := 10000
    m_ssThresh := 14600
    m_bytesInFlight := 10000
    m_segmentSize := 1460 }

/-- A policy object in `SSRB` mode that has sent more than was delivered, as after two acks
of one segment each of which allowed two segments: 2920 bytes delivered, 5840 bytes sent. -/
def sentAhead : PrrRecovery :=
  { m_prrDelivered := 2920
    m_prrOut := 5840
    m_recoveryFlightSize := 21900
    m_isSackEnabled := true
    m_dupAckCount := 0
    m_previousSackedBytes := 0
    m_reductionBoundMode := ReductionBound_t.SSRB }

/-- A policy object in `CRB` mode with 8540 bytes delivered and 2920 bytes sent. -/
def conservativeEpisode : PrrRecovery :=
  { m_prrDelivered := 8540
    m_prrOut := 2920
    m_recoveryFlightSize := 21900
    m_isSackEnabled := true
    m_dupAckCount := 0
    m_previousSackedBytes := 0
    m_reductionBoundMode := ReductionBound_t.CRB }

/-- A congestion state whose segment size is `2^31`, above its target. -/
def hugeSegmentTcb : TcpSocketState :=
  { m_cWnd := 21900
    m_cWndInfl := 21900
    m_ssThresh := 14600
    m_bytesInFlight := 21900
    m_segmentSize := 2147483648 }

/-- The congestion state of the scenario of the spec after `EnterRecovery` and the
transmission of one segment, with `bytesInFlight` down to 19040. -/
def scenarioTcbAfterAck : TcpSocketState :=
  { m_cWnd := 23360
    m_cWndInfl := 23360
    m_ssThresh := 14600
    m_bytesInFlight := 19040
    m_segmentSize := 1460 }

/-- A policy object in non-SACK mode with no duplicate ack counted yet. -/
def nonSackStart : PrrRecovery :=
  { m_prrDelivered := 0
    m_prrOut := 0
    m_recoveryFlightSize := 21900
    m_isSackEnabled := false
    m_dupAckCount := 0
    m_previousSackedBytes := 0
    m_reductionBoundMode := ReductionBound_t.SSRB }

/-- A congestion state whose segment size is 0. -/
def zeroSegmentTcb : TcpSocketState :=
  { m_cWnd := 21900
    m_cWndInfl := 21900
    m_ssThresh := 14600
    m_bytesInFlight := 21900
    m_segmentSize := 0 }

/-- A congestion state below its target whose segment size is `2^31`. -/
def hugeSegmentBelowTcb : TcpSocketState :=
  { m_cWnd := 10000
    m_cWndInfl := 10000
    m_ssThresh := 14600
    m_bytesInFlight := 10000
    m_segmentSize := 2147483648 }

/-- A memory that holds one policy object, at address 0. -/
def oneObject : Heap := { cells := [midEpisode] }

/-- The condition under which a call keeps the counters inside `uint32_t` arithmetic: for
`DoRecovery` in SACK mode the signed sum `lastAckedBytes + (lastSackedBytes -
previousSackedBytes)` is not negative and `prrDelivered` plus that sum is below `2^32`; for
`UpdateBytesSent` the sum `prrOut + bytesSent` is below `2^32`. -/
abbrev Call.inRange (self : PrrRecovery) (c : Call) : Prop :=
  match c with
  | Call.doRecovery _ lastAckedBytes lastSackedBytes _ =>
      0 ≤ (lastAckedBytes : Int) + (lastSackedBytes : Int) - (self.m_previousSackedBytes : Int) ∧
        (self.m_prrDelivered : Int) +
          ((lastAckedBytes : Int) + (lastSackedBytes : Int) - (self.m_previousSackedBytes : Int))
          < 4294967296
  | Call.updateBytesSent bytesSent => self.m_prrOut + bytesSent < 4294967296

/-! ## Lemmas on the machine arithmetic -/

theorem toUInt32_of_range (z : Int) (h0 : 0 ≤ z) (h1 : z < 4294967296) :
    (toUInt32 z : Int) = z := by
  unfold toUInt32
  omega

theorem toInt32_of_range (z : Int) (h0 : -2147483648 ≤ z) (h1 : z < 2147483648) :
    toInt32 z = z := by
  unfold toInt32
  omega

theorem toInt32_lower (z : Int) : -2147483648 ≤ toInt32 z := by
  unfold toInt32
  omega

theorem toInt32_upper (z : Int) : toInt32 z < 2147483648 := by
  unfold toInt32
  omega

theorem toUInt32_lt (z : Int) : toUInt32 z < 4294967296 := by
  unfold toUInt32
  omega

/-- Line 95: the unsigned sum of `lastAckedBytes` and the `int` change of the sacked bytes is
the integer `lastAckedBytes + lastSackedBytes - m_previousSackedBytes` reduced modulo
`2^32`. -/
theorem u32addInt_change (a s p : Nat) :
    u32addInt a (toInt32 (u32sub s p)) = toUInt32 ((a : Int) + (s : Int) - (p : Int)) := by
  unfold u32addInt toInt32 u32sub toUInt32
  omega

/-- For `rfs > 0` the value of `ceilQuotient` is the ceiling of the rational quotient. -/
theorem ceilQuotient_eq_ceil (prod rfs : Nat) (h : 0 < rfs) :
    ceilQuotient prod rfs = Dbl.finite ⌈(prod : ℚ) / (rfs : ℚ)⌉ := by
  unfold ceilQuotient
  rw [if_neg (by omega)]
  congr 1
  symm
  rw [Int.ceil_eq_iff]
  have hq : (0 : ℚ) < (rfs : ℚ) := by exact_mod_cast h
  have h1 : rfs * ((prod + rfs - 1) / rfs) ≤ prod + rfs - 1 := Nat.mul_div_le _ _
  have h2 : prod + rfs - 1 < rfs * ((prod + rfs - 1) / rfs) + rfs := by
    have := Nat.lt_div_mul_add (a := prod + rfs - 1) h
    rw [Nat.mul_comm] at this
    exact this
  generalize (prod + rfs - 1) / rfs = z at h1 h2
  have h3 : rfs * z < prod + rfs := by omega
  have h4 : prod ≤ rfs * z := by omega
  have h3q : (rfs : ℚ) * (z : ℚ) < (prod : ℚ) + (rfs : ℚ) := by exact_mod_cast h3
  have h4q : (prod : ℚ) ≤ (rfs : ℚ) * (z : ℚ) := by exact_mod_cast h4
  constructor
  · rw [lt_div_iff₀ hq]
    push_cast
    nlinarith
  · rw [div_le_iff₀ hq]
    push_cast
    nlinarith

/-! ## Lemmas on `DoRecovery` -/

theorem afterDelivered_prrOut (self : PrrRecovery) (tcb : TcpSocketState) (a s : Nat)
    (d : Bool) : (self.afterDelivered tcb a s d).m_prrOut = self.m_prrOut := by
  unfold PrrRecovery.afterDelivered
  cases self.m_isSackEnabled <;> cases d <;> rfl

theorem afterDelivered_mode (self : PrrRecovery) (tcb : TcpSocketState) (a s : Nat)
    (d : Bool) :
    (self.afterDelivered tcb a s d).m_reductionBoundMode = self.m_reductionBoundMode := by
  unfold PrrRecovery.afterDelivered
  cases self.m_isSackEnabled <;> cases d <;> rfl

theorem afterDelivered_isSackEnabled (self : PrrRecovery) (tcb : TcpSocketState) (a s : Nat)
    (d : Bool) : (self.afterDelivered tcb a s d).m_isSackEnabled = self.m_isSackEnabled := by
  unfold PrrRecovery.afterDelivered
  cases self.m_isSackEnabled <;> cases d <;> rfl

theorem DoRecovery_fst (ub : Dbl → Int) (self : PrrRecovery) (tcb : TcpSocketState)
    (a s : Nat) (d : Bool) :
    (self.DoRecovery ub tcb a s d).1 = self.afterDelivered tcb a s d := rfl

theorem DoRecovery_cWnd (ub : Dbl → Int) (self : PrrRecovery) (tcb : TcpSocketState)
    (a s : Nat) (d : Bool) :
    (self.DoRecovery ub tcb a s d).2.m_cWnd =
      u32addInt tcb.m_bytesInFlight
        ((self.afterDelivered tcb a s d).forcedSendCount ub tcb
          (self.lastDeliveredBytes tcb a s d)) := rfl

/-- In SACK mode lines 94-95 compute `lastAckedBytes + lastSackedBytes -
m_previousSackedBytes` reduced modulo `2^32`: the test `> 0` is unsigned and clamps
nothing. -/
theorem lastDeliveredBytes_sack (self : PrrRecovery) (tcb : TcpSocketState) (a s : Nat)
    (d : Bool) (h : self.m_isSackEnabled = true) :
    self.lastDeliveredBytes tcb a s d
      = toUInt32 ((a : Int) + (s : Int) - (self.m_previousSackedBytes : Int)) := by
  unfold PrrRecovery.lastDeliveredBytes
  simp only [h, if_true]
  rw [u32addInt_change]
  split <;> omega

theorem afterDelivered_prrDelivered_sack (self : PrrRecovery) (tcb : TcpSocketState) (a s : Nat)
    (d : Bool) (h : self.m_isSackEnabled = true) :
    (self.afterDelivered tcb a s d).m_prrDelivered
      = u32add self.m_prrDelivered
          (toUInt32 ((a : Int) + (s : Int) - (self.m_previousSackedBytes : Int))) := by
  unfold PrrRecovery.afterDelivered
  rw [lastDeliveredBytes_sack self tcb a s d h]
  simp only [h, if_true]

theorem Call.apply_isSackEnabled (ub : Dbl → Int) (self : PrrRecovery) (c : Call) :
    (c.apply ub self).m_isSackEnabled = self.m_isSackEnabled := by
  cases c with
  | doRecovery tcb a s d => exact afterDelivered_isSackEnabled self tcb a s d
  | updateBytesSent n => rfl

theorem runCalls_isSackEnabled (ub : Dbl → Int) (calls : List Call) (self : PrrRecovery) :
    (runCalls ub self calls).m_isSackEnabled = self.m_isSackEnabled := by
  induction calls generalizing self with
  | nil => rfl
  | cons c cs ih =>
    show (runCalls ub (c.apply ub self) cs).m_isSackEnabled = self.m_isSackEnabled
    rw [ih, Call.apply_isSackEnabled]

theorem EnterRecovery_returned (ub : Dbl → Int) (self : PrrRecovery) (tcb : TcpSocketState)
    (dupAckCount unAckDataCount : Nat) :
    PrrRecovery.EnterRecovery ub self tcb dupAckCount true unAckDataCount
      = Outcome.returned
          (PrrRecovery.DoRecovery ub
            { self with
              m_prrOut := 0
              m_prrDelivered := 0
              m_isSackEnabled := true
              m_recoveryFlightSize := unAckDataCount } tcb 0 0 false) := rfl

theorem step_monotone (ub : Dbl → Int) (self : PrrRecovery) (c : Call)
    (hsack : self.m_isSackEnabled = true) (hc : c.inRange self) :
    self.m_prrDelivered ≤ (c.apply ub self).m_prrDelivered ∧
      self.m_prrOut ≤ (c.apply ub self).m_prrOut := by
  cases c with
  | doRecovery tcb a s d =>
    obtain ⟨h0, h1⟩ := hc
    show self.m_prrDelivered ≤ (self.afterDelivered tcb a s d).m_prrDelivered ∧
      self.m_prrOut ≤ (self.afterDelivered tcb a s d).m_prrOut
    rw [afterDelivered_prrOut, afterDelivered_prrDelivered_sack self tcb a s d hsack]
    refine ⟨?_, le_refl _⟩
    have h2 := toUInt32_of_range _ h0 (by omega)
    unfold u32add
    omega
  | updateBytesSent n =>
    have h : self.m_prrOut + n < 4294967296 := hc
    show self.m_prrDelivered ≤ self.m_prrDelivered ∧ self.m_prrOut ≤ u32add self.m_prrOut n
    unfold u32add
    omega

/-! ## Lemmas on a new policy object -/

theorem toUInt32_zero : toUInt32 (0 + 0 - 0) = 0 := by
  decide

theorem u32mul_zero_left (x : Nat) : u32mul 0 x = 0 := by
  simp [u32mul]

theorem ceilQuotient_zero (n : Nat) (hn : 0 < n) : ceilQuotient 0 n = Dbl.finite 0 := by
  unfold ceilQuotient
  have hq : (0 + n - 1) / n = 0 := Nat.div_eq_of_lt (by omega)
  rw [if_neg (by omega), hq]
  rfl

theorem fresh_afterDelivered (mode : ReductionBound_t) (tcb : TcpSocketState) (n : Nat) :
    PrrRecovery.afterDelivered
        { m_prrDelivered := 0
          m_prrOut := 0
          m_recoveryFlightSize := n
          m_isSackEnabled := true
          m_dupAckCount := 0
          m_previousSackedBytes := 0
          m_reductionBoundMode := mode } tcb 0 0 false
      = { m_prrDelivered := 0
          m_prrOut := 0
          m_recoveryFlightSize := n
          m_isSackEnabled := true
          m_dupAckCount := 0
          m_previousSackedBytes := 0
          m_reductionBoundMode := mode } := by
  unfold PrrRecovery.afterDelivered
  rw [lastDeliveredBytes_sack _ _ _ _ _ rfl]
  simp only [if_true, Nat.cast_zero, toUInt32_zero]
  rfl

theorem fresh_forcedSendCount (ub : Dbl → Int) (mode : ReductionBound_t) (tcb : TcpSocketState)
    (n : Nat) (hseg : tcb.m_segmentSize < 2147483648) (hn : 0 < n) :
    PrrRecovery.forcedSendCount ub
        { m_prrDelivered := 0
          m_prrOut := 0
          m_recoveryFlightSize := n
          m_isSackEnabled := true
          m_dupAckCount := 0
          m_previousSackedBytes := 0
          m_reductionBoundMode := mode } tcb 0
      = (tcb.m_segmentSize : Int) := by
  have hcast : toInt32 (tcb.m_segmentSize : Int) = tcb.m_segmentSize :=
    toInt32_of_range _ (by omega) (by omega)
  unfold PrrRecovery.forcedSendCount
  simp only [ne_eq, not_true_eq_false, if_false, hcast]
  apply max_eq_right
  unfold PrrRecovery.sendCount
  split
  · show doubleToInt ub ((ceilQuotient (u32mul 0 tcb.m_ssThresh) n).subU32 0) ≤ _
    rw [u32mul_zero_left, ceilQuotient_zero n hn]
    simp only [Dbl.subU32, doubleToInt]
    norm_num
  · apply le_trans (min_le_left _ _)
    unfold PrrRecovery.limit
    cases mode
    · simp only
      have h0 : toInt32 (u32sub 0 0) = 0 := by decide
      rw [h0]
      omega
    · simp only
      have h0 : u32sub 0 0 = 0 := by decide
      rw [h0]
      unfold u32add toInt32
      simp only [Nat.max_self]
      omega

/-! ## Lemmas on the non-SACK path -/

theorem runCalls_cons (ub : Dbl → Int) (self : PrrRecovery) (c : Call) (cs : List Call) :
    runCalls ub self (c :: cs) = runCalls ub (c.apply ub self) cs := rfl

/-- One duplicate ack in non-SACK mode (lines 100-104 and 112). -/
theorem dupAck_step (ub : Dbl → Int) (self : PrrRecovery) (c : Call) (seg : Nat)
    (hsack : self.m_isSackEnabled = false) (hc : c.isDupAckWith seg) :
    (c.apply ub self).m_isSackEnabled = false ∧
      (c.apply ub self).m_dupAckCount = (self.m_dupAckCount + 1) % 4294967296 ∧
      (c.apply ub self).m_prrDelivered = (self.m_prrDelivered + seg) % 4294967296 := by
  cases c with
  | doRecovery tcb a s d =>
    obtain ⟨hd, hseg⟩ := hc
    subst hd
    subst hseg
    show (self.afterDelivered tcb a s true).m_isSackEnabled = false ∧
      (self.afterDelivered tcb a s true).m_dupAckCount = _ ∧
      (self.afterDelivered tcb a s true).m_prrDelivered = _
    simp [PrrRecovery.afterDelivered, PrrRecovery.lastDeliveredBytes, hsack, u32add]
  | updateBytesSent n => exact absurd hc id

/-- A run of duplicate acks in non-SACK mode: both counters advance modulo `2^32`. -/
theorem dupAck_run (ub : Dbl → Int) (seg : Nat) (calls : List Call) (self : PrrRecovery)
    (hsack : self.m_isSackEnabled = false) (hd : IsU32 self.m_dupAckCount)
    (hp : IsU32 self.m_prrDelivered) (hc : ∀ c ∈ calls, c.isDupAckWith seg) :
    (runCalls ub self calls).m_isSackEnabled = false ∧
      (runCalls ub self calls).m_dupAckCount
        = (self.m_dupAckCount + calls.length) % 4294967296 ∧
      (runCalls ub self calls).m_prrDelivered
        = (self.m_prrDelivered + calls.length * seg) % 4294967296 := by
  induction calls generalizing self with
  | nil =>
    have hd1 : self.m_dupAckCount < 4294967296 := hd
    have hp1 : self.m_prrDelivered < 4294967296 := hp
    refine ⟨hsack, ?_, ?_⟩
    · show self.m_dupAckCount = (self.m_dupAckCount + 0) % 4294967296
      omega
    · show self.m_prrDelivered = (self.m_prrDelivered + 0 * seg) % 4294967296
      omega
  | cons c cs ih =>
    obtain ⟨h1, h2, h3⟩ := dupAck_step ub self c seg hsack (hc c (List.mem_cons_self c cs))
    have hd1 : IsU32 (c.apply ub self).m_dupAckCount := by
      show (c.apply ub self).m_dupAckCount < 4294967296
      omega
    have hp1 : IsU32 (c.apply ub self).m_prrDelivered := by
      show (c.apply ub self).m_prrDelivered < 4294967296
      omega
    obtain ⟨i1, i2, i3⟩ :=
      ih (c.apply ub self) h1 hd1 hp1 (fun x hx => hc x (List.mem_cons_of_mem c hx))
    rw [runCalls_cons]
    refine ⟨i1, ?_, ?_⟩
    · rw [i2, h2, List.length_cons]
      omega
    · rw [i3, h3, List.length_cons, Nat.succ_mul]
      omega

/-- An ack that is not a duplicate in non-SACK mode (lines 105-110 and 112). -/
theorem nonSack_ack_step (ub : Dbl → Int) (self : PrrRecovery) (tcb : TcpSocketState)
    (a s : Nat) (hsack : self.m_isSackEnabled = false) :
    (self.DoRecovery ub tcb a s false).1.m_dupAckCount = 0 ∧
      (self.DoRecovery ub tcb a s false).1.m_prrDelivered
        = (self.m_prrDelivered + (a - (self.m_dupAckCount * tcb.m_segmentSize) % 4294967296))
            % 4294967296 := by
  rw [DoRecovery_fst]
  simp only [PrrRecovery.afterDelivered, PrrRecovery.lastDeliveredBytes, hsack, u32add, u32mul]
  refine ⟨by simp, ?_⟩
  simp only [Bool.false_eq_true, if_false]
  split
  · rfl
  · congr 1
    omega

/-! ## Lemmas on the send budget -/

theorem DoRecovery_cWndInfl (ub : Dbl → Int) (self : PrrRecovery) (tcb : TcpSocketState)
    (a s : Nat) (d : Bool) :
    (self.DoRecovery ub tcb a s d).2.m_cWndInfl = (self.DoRecovery ub tcb a s d).2.m_cWnd := rfl

/-- Line 133: the budget is not negative when `m_prrOut` is not zero or
`(int) m_segmentSize` is not negative. -/
theorem forcedSendCount_nonneg (ub : Dbl → Int) (self : PrrRecovery) (tcb : TcpSocketState)
    (ld : Nat) (h : self.m_prrOut ≠ 0 ∨ tcb.m_segmentSize < 2147483648) :
    0 ≤ self.forcedSendCount ub tcb ld := by
  unfold PrrRecovery.forcedSendCount
  apply le_trans _ (le_max_right _ _)
  by_cases hout : self.m_prrOut ≠ 0
  · rw [if_pos hout]
  · rw [if_neg hout]
    have hseg : tcb.m_segmentSize < 2147483648 := h.resolve_left hout
    rw [toInt32_of_range _ (by omega) (by omega)]
    omega

/-! ## Lemmas on sequences of operations -/

theorem afterDelivered_dupAckCount_sack (self : PrrRecovery) (tcb : TcpSocketState) (a s : Nat)
    (d : Bool) (h : self.m_isSackEnabled = true) :
    (self.afterDelivered tcb a s d).m_dupAckCount = self.m_dupAckCount := by
  unfold PrrRecovery.afterDelivered
  simp only [h, if_true]

theorem afterDelivered_previousSackedBytes_sack (self : PrrRecovery) (tcb : TcpSocketState)
    (a s : Nat) (d : Bool) (h : self.m_isSackEnabled = true) :
    (self.afterDelivered tcb a s d).m_previousSackedBytes = s := by
  unfold PrrRecovery.afterDelivered
  simp only [h, if_true]

/-- In SACK mode `DoRecovery` does not read `isDupack`. -/
theorem DoRecovery_isDupack_irrelevant (ub : Dbl → Int) (self : PrrRecovery)
    (tcb : TcpSocketState) (a s : Nat) (d : Bool) (h : self.m_isSackEnabled = true) :
    self.DoRecovery ub tcb a s d = self.DoRecovery ub tcb a s false := by
  unfold PrrRecovery.DoRecovery PrrRecovery.afterDelivered PrrRecovery.lastDeliveredBytes
  simp only [h, if_true]

/-- An operation that returns keeps `m_isSackEnabled = true` and `m_dupAckCount = 0`. -/
theorem Op.run_invariant (ub : Dbl → Int) (self next : PrrRecovery) (op : Op)
    (hrun : op.run ub self = Outcome.returned next)
    (hsack : self.m_isSackEnabled = true) (hdup : self.m_dupAckCount = 0) :
    next.m_isSackEnabled = true ∧ next.m_dupAckCount = 0 := by
  cases op with
  | enterRecovery tcb dupAckCount isSackEnabled unAckDataCount =>
    cases isSackEnabled with
    | false => exact Outcome.noConfusion hrun
    | true =>
      have hnext : (PrrRecovery.DoRecovery ub
          { self with
            m_prrOut := 0
            m_prrDelivered := 0
            m_isSackEnabled := true
            m_recoveryFlightSize := unAckDataCount } tcb 0 0 false).1 = next :=
        Outcome.returned.inj hrun
      rw [← hnext, DoRecovery_fst]
      exact ⟨by rw [afterDelivered_isSackEnabled],
        by rw [afterDelivered_dupAckCount_sack _ _ _ _ _ rfl]; exact hdup⟩
  | doRecovery tcb a s d =>
    have hnext : (self.DoRecovery ub tcb a s d).1 = next := Outcome.returned.inj hrun
    rw [← hnext, DoRecovery_fst]
    exact ⟨by rw [afterDelivered_isSackEnabled]; exact hsack,
      by rw [afterDelivered_dupAckCount_sack _ _ _ _ _ hsack]; exact hdup⟩
  | exitRecovery tcb =>
    have hnext : self = next := Outcome.returned.inj hrun
    rw [← hnext]
    exact ⟨hsack, hdup⟩
  | updateBytesSent n =>
    have hnext : self.UpdateBytesSent n = next := Outcome.returned.inj hrun
    rw [← hnext]
    exact ⟨hsack, hdup⟩
  | fork =>
    have hnext : PrrRecovery.copy self = next := Outcome.returned.inj hrun
    rw [← hnext]
    exact ⟨hsack, hdup⟩

theorem runOps_invariant (ub : Dbl → Int) (ops : List Op) (self last : PrrRecovery)
    (hrun : runOps ub self ops = Outcome.returned last)
    (hsack : self.m_isSackEnabled = true) (hdup : self.m_dupAckCount = 0) :
    last.m_isSackEnabled = true ∧ last.m_dupAckCount = 0 := by
  induction ops generalizing self with
  | nil =>
    have h : self = last := Outcome.returned.inj hrun
    rw [← h]
    exact ⟨hsack, hdup⟩
  | cons op rest ih =>
    unfold runOps at hrun
    cases hop : op.run ub self with
    | returned next =>
      rw [hop] at hrun
      obtain ⟨h1, h2⟩ := Op.run_invariant ub self next op hop hsack hdup
      exact ih next hrun h1 h2
    | aborted next =>
      rw [hop] at hrun
      exact Outcome.noConfusion hrun

/-! ## Lemmas on objects in memory -/

/-- A call through the pointer `this` leaves every other allocated object as it was. -/
theorem Heap.call_frame (ub : Dbl → Int) (h : Heap) (this other : Ptr) (op : Op)
    (v : PrrRecovery) (hne : other ≠ this) (hv : h.read other = some v) :
    (h.call ub this op).state.read other = some v := by
  have hlt : other < h.cells.length := by
    unfold Heap.read at hv
    exact (List.getElem?_eq_some.mp hv).1
  unfold Heap.call
  cases hthis : h.read this with
  | none => exact hv
  | some self =>
    have hset : ∀ w : PrrRecovery, (h.cells.set this w)[other]? = some v := by
      intro w
      rw [List.getElem?_set_ne (Ne.symm hne)]
      exact hv
    cases op with
    | enterRecovery tcb dupAckCount isSackEnabled unAckDataCount =>
      simp only
      cases self.EnterRecovery ub tcb dupAckCount isSackEnabled unAckDataCount with
      | returned s => exact hset _
      | aborted s => exact hset _
    | doRecovery tcb a s d => exact hset _
    | exitRecovery tcb => exact hset _
    | updateBytesSent n => exact hset _
    | fork =>
      simp only [Heap.Fork, Heap.CopyObject, hthis]
      show (h.cells ++ [PrrRecovery.copy self])[other]? = some v
      rw [List.getElem?_append_left hlt]
      exact hv

theorem Heap.runOn_frame (ub : Dbl → Int) (ops : List Op) (h : Heap) (this other : Ptr)
    (v : PrrRecovery) (hne : other ≠ this) (hv : h.read other = some v) :
    (h.runOn ub this ops).state.read other = some v := by
  induction ops generalizing h with
  | nil => exact hv
  | cons op rest ih =>
    have hstep := Heap.call_frame ub h this other op v hne hv
    unfold Heap.runOn
    cases hc : h.call ub this op with
    | returned h1 =>
      rw [hc] at hstep
      exact ih h1 hstep
    | aborted h1 =>
      rw [hc] at hstep
      exact hstep

/-- A call of a method through the pointer `this` leaves at that address the object the
method produces. -/
theorem Heap.call_self (ub : Dbl → Int) (h : Heap) (this : Ptr) (op : Op) (v : PrrRecovery)
    (hop : op ≠ Op.fork) (hv : h.read this = some v) :
    (h.call ub this op).state.read this = some (op.run ub v).state := by
  have hlt : this < h.cells.length := by
    unfold Heap.read at hv
    exact (List.getElem?_eq_some.mp hv).1
  have hset : ∀ w : PrrRecovery, (h.cells.set this w)[this]? = some w :=
    fun w => List.getElem?_set_self hlt
  unfold Heap.call Op.run
  rw [hv]
  cases op with
  | enterRecovery tcb dupAckCount isSackEnabled unAckDataCount =>
    simp only
    cases v.EnterRecovery ub tcb dupAckCount isSackEnabled unAckDataCount with
    | returned s => exact hset _
    | aborted s => exact hset _
  | doRecovery tcb a s d => exact hset _
  | exitRecovery tcb => exact hset _
  | updateBytesSent n => exact hset _
  | fork => exact absurd rfl hop

/-! ## The claims -/

/-- C1, evaluated at a failing input: on the policy object left by a first episode in which
an ack reported 1460 sacked bytes, `EnterRecovery` with SACK enabled returns with
`prrDelivered = 4294965836` instead of 0 (`prrOut` is 0).  The step `DoRecovery (0, 0, false)`
inside `EnterRecovery` computes the change of the sacked bytes as -1460, and the unsigned
test of line 95 lets it through as `2^32 - 1460`.  Every conversion to `int` on this input
is in range, so the platform parameter is not consulted. -/
theorem EnterRecovery_after_sacked_episode :
    (firstEpisode x86Indefinite).valid ∧ scenarioTcb.valid ∧
      (firstEpisode x86Indefinite).m_previousSackedBytes = 1460 ∧
      PrrRecovery.EnterRecovery x86Indefinite (firstEpisode x86Indefinite) scenarioTcb 3 true
          21900
        = Outcome.returned
            ({ m_prrDelivered := 4294965836
               m_prrOut := 0
               m_recoveryFlightSize := 21900
               m_isSackEnabled := true
               m_dupAckCount := 0
               m_previousSackedBytes := 0
               m_reductionBoundMode := ReductionBound_t.CRB },
             { scenarioTcb with m_cWnd := 217044, m_cWndInfl := 217044 }) := by
  decide

/-- C2, evaluated at a failing input: in SACK mode with `prrDelivered = 5000` and
`previousSackedBytes = 1000`, the call `DoRecovery (lastAckedBytes = 0, lastSackedBytes = 0)`
leaves `prrDelivered = 4000`, although the signed sum `0 + (0 - 1000)` is negative and its
clamp `max 0 (-1000) = 0` would leave 5000; `previousSackedBytes` becomes 0 as claimed. -/
theorem DoRecovery_negative_sum_wraps :
    midEpisode.valid ∧ scenarioTcb.valid ∧ midEpisode.m_isSackEnabled = true ∧
      (midEpisode.DoRecovery x86Indefinite scenarioTcb 0 0 false).1.m_prrDelivered = 4000 ∧
      (midEpisode.DoRecovery x86Indefinite scenarioTcb 0 0 false).1.m_previousSackedBytes = 0 ∧
      midEpisode.m_prrDelivered + (max 0 ((0 : Int) + ((0 : Int) - 1000))).toNat = 5000 := by
  decide

/-- C3: a `DoRecovery` call made while `prrOut = 0` leaves a send budget
`cwnd - bytesInFlight` of at least `segmentSize`, for every ack, mode and region, when
`segmentSize < 2^31` and `bytesInFlight` plus the budget is at most `2^32 - 1`. -/
theorem DoRecovery_first_step_floor (ub : Dbl → Int) (self : PrrRecovery)
    (tcb : TcpSocketState) (lastAckedBytes lastSackedBytes : Nat) (isDupack : Bool)
    (hout : self.m_prrOut = 0) (hseg : tcb.m_segmentSize < 2147483648)
    (hsum : (tcb.m_bytesInFlight : Int) +
        (self.afterDelivered tcb lastAckedBytes lastSackedBytes isDupack).forcedSendCount ub tcb
          (self.lastDeliveredBytes tcb lastAckedBytes lastSackedBytes isDupack)
        ≤ 4294967295) :
    ((self.DoRecovery ub tcb lastAckedBytes lastSackedBytes isDupack).2.m_cWnd : Int)
        - (tcb.m_bytesInFlight : Int) ≥ (tcb.m_segmentSize : Int) := by
  rw [DoRecovery_cWnd]
  generalize hb : (self.afterDelivered tcb lastAckedBytes lastSackedBytes isDupack).forcedSendCount
    ub tcb (self.lastDeliveredBytes tcb lastAckedBytes lastSackedBytes isDupack) = budget at hsum
  have hfloor : (tcb.m_segmentSize : Int) ≤ budget := by
    rw [← hb]
    unfold PrrRecovery.forcedSendCount
    rw [afterDelivered_prrOut, hout]
    simp only [ne_eq, not_true_eq_false, if_false]
    rw [toInt32_of_range _ (by omega) (by omega)]
    exact le_max_right _ _
  unfold u32addInt
  rw [toUInt32_of_range _ (by omega) (by omega)]
  omega

/-- Witness of C3: the first ack of the episode of the spec's scenario. -/
theorem DoRecovery_first_step_floor_witness :
    episodeStart.m_prrOut = 0 ∧ scenarioTcb.m_segmentSize < 2147483648 ∧
      (scenarioTcb.m_bytesInFlight : Int) +
        (episodeStart.afterDelivered scenarioTcb 2920 0 false).forcedSendCount x86Indefinite
          scenarioTcb (episodeStart.lastDeliveredBytes scenarioTcb 2920 0 false)
        ≤ 4294967295 ∧
      ((episodeStart.DoRecovery x86Indefinite scenarioTcb 2920 0 false).2.m_cWnd : Int)
        - (scenarioTcb.m_bytesInFlight : Int) ≥ (scenarioTcb.m_segmentSize : Int) :=
  ⟨rfl, by decide, by decide,
    DoRecovery_first_step_floor x86Indefinite episodeStart scenarioTcb 2920 0 false rfl
      (by decide) (by decide)⟩

/-- C4, evaluated at a failing input: with `prrDelivered = 60000` after the ack,
`ssthresh = 75000`, `recoveryFlightSize = 150000`, `prrOut = 29200` and
`bytesInFlight = 119200 > ssthresh`, the exact value is
`ceil (60000 * 75000 / 150000) - 29200 = 800`, but `DoRecovery` computes
`sendCount = -27833` and leaves `cwnd = bytesInFlight = 119200`: the product
`60000 * 75000 = 4500000000` is formed in `uint32_t` and wraps to `205032704` before
it is multiplied by `1.0`. -/
theorem DoRecovery_product_wraps :
    largeEpisode.valid ∧ largeTcb.valid ∧ largeTcb.m_bytesInFlight > largeTcb.m_ssThresh ∧
      (largeEpisode.DoRecovery x86Indefinite largeTcb 1460 0 false).1.m_prrDelivered = 60000 ∧
      u32mul 60000 largeTcb.m_ssThresh = 205032704 ∧
      (largeEpisode.afterDelivered largeTcb 1460 0 false).sendCount x86Indefinite largeTcb
        (largeEpisode.lastDeliveredBytes largeTcb 1460 0 false) = -27833 ∧
      (largeEpisode.DoRecovery x86Indefinite largeTcb 1460 0 false).2.m_cWnd = 119200 ∧
      ⌈((60000 : ℚ) * 75000) / 150000⌉ - 29200 = 800 := by
  refine ⟨by decide, by decide, by decide, by decide, by decide, by decide, by decide, ?_⟩
  have h : ((60000 : ℚ) * 75000) / 150000 = ((30000 : ℤ) : ℚ) := by norm_num
  rw [h, Int.ceil_intCast]
  norm_num

/-- C5, evaluated at a failing input: in `SSRB` mode with `bytesInFlight = 10000` below
`ssthresh = 14600`, `prrDelivered = 4380` after an ack of 1460 bytes and `prrOut = 5840`,
the signed formula gives `limit = max (4380 - 5840) 1460 + 1460 = 2920` and
`sendCount = min 2920 4600 = 2920`, but `DoRecovery` uses `limit = 0` and `sendCount = 0`
and leaves `cwnd = bytesInFlight = 10000`: `std::max` compares the `uint32_t` difference
`2^32 - 1460` with `lastDeliveredBytes`. -/
theorem DoRecovery_ssrb_unsigned_max :
    sentAhead.valid ∧ belowTcb.valid ∧ belowTcb.m_bytesInFlight ≤ belowTcb.m_ssThresh ∧
      sentAhead.m_reductionBoundMode = ReductionBound_t.SSRB ∧
      (sentAhead.afterDelivered belowTcb 1460 0 false).m_prrDelivered = 4380 ∧
      sentAhead.lastDeliveredBytes belowTcb 1460 0 false = 1460 ∧
      (sentAhead.afterDelivered belowTcb 1460 0 false).limit belowTcb 1460 = 0 ∧
      (sentAhead.afterDelivered belowTcb 1460 0 false).sendCount x86Indefinite belowTcb 1460
        = 0 ∧
      (sentAhead.DoRecovery x86Indefinite belowTcb 1460 0 false).2.m_cWnd = 10000 ∧
      max ((4380 : Int) - 5840) 1460 + 1460 = 2920 ∧
      min (max ((4380 : Int) - 5840) 1460 + 1460) ((14600 : Int) - 10000) = 2920 := by
  decide

/-- C6: in `CRB` mode with `bytesInFlight <= ssthresh` and `prrOut > 0`, `DoRecovery` sets
`cwnd = bytesInFlight + max 0 (min (prrDelivered - prrOut) (ssthresh - bytesInFlight))`,
where `prrDelivered` is read after the bytes of this ack were added, the differences are
signed, and `prrDelivered`, `prrOut` and `ssthresh` are below `2^31`. -/
theorem DoRecovery_crb_cwnd (ub : Dbl → Int) (self : PrrRecovery) (tcb : TcpSocketState)
    (lastAckedBytes lastSackedBytes : Nat) (isDupack : Bool)
    (hmode : self.m_reductionBoundMode = ReductionBound_t.CRB)
    (hbelow : tcb.m_bytesInFlight ≤ tcb.m_ssThresh)
    (hout : 0 < self.m_prrOut)
    (hd : (self.afterDelivered tcb lastAckedBytes lastSackedBytes isDupack).m_prrDelivered
      < 2147483648)
    (ho : self.m_prrOut < 2147483648)
    (hss : tcb.m_ssThresh < 2147483648) :
    ((self.DoRecovery ub tcb lastAckedBytes lastSackedBytes isDupack).2.m_cWnd : Int) =
      (tcb.m_bytesInFlight : Int) +
        max 0 (min
          (((self.afterDelivered tcb lastAckedBytes lastSackedBytes isDupack).m_prrDelivered
              : Int) - (self.m_prrOut : Int))
          ((tcb.m_ssThresh : Int) - (tcb.m_bytesInFlight : Int))) := by
  rw [DoRecovery_cWnd]
  unfold PrrRecovery.forcedSendCount PrrRecovery.sendCount PrrRecovery.limit
  rw [afterDelivered_prrOut, afterDelivered_mode, hmode]
  generalize (self.afterDelivered tcb lastAckedBytes lastSackedBytes isDupack).m_prrDelivered
    = delivered at hd
  have hnb : ¬ tcb.m_bytesInFlight > tcb.m_ssThresh := by omega
  have hne : self.m_prrOut ≠ 0 := by omega
  simp only [hnb, hne, if_false, if_true, ne_eq, not_false_eq_true]
  have h1 : toInt32 (u32sub delivered self.m_prrOut) = (delivered : Int) - self.m_prrOut := by
    unfold toInt32 u32sub toUInt32
    omega
  have h2 : toInt32 (u32sub tcb.m_ssThresh tcb.m_bytesInFlight)
      = (tcb.m_ssThresh : Int) - tcb.m_bytesInFlight := by
    unfold toInt32 u32sub toUInt32
    omega
  rw [h1, h2]
  unfold u32addInt
  rw [max_comm]
  have hlo : 0 ≤ max 0 (min ((delivered : Int) - self.m_prrOut)
      ((tcb.m_ssThresh : Int) - tcb.m_bytesInFlight)) := le_max_left _ _
  have hhi : max 0 (min ((delivered : Int) - self.m_prrOut)
      ((tcb.m_ssThresh : Int) - tcb.m_bytesInFlight))
      ≤ (tcb.m_ssThresh : Int) - tcb.m_bytesInFlight :=
    max_le (by omega) (min_le_right _ _)
  rw [toUInt32_of_range _ (by omega) (by omega)]

/-- Witness of C6: an ack of 1460 bytes in `CRB` mode below `ssthresh`. -/
theorem DoRecovery_crb_cwnd_witness :
    conservativeEpisode.m_reductionBoundMode = ReductionBound_t.CRB ∧
      belowTcb.m_bytesInFlight ≤ belowTcb.m_ssThresh ∧ 0 < conservativeEpisode.m_prrOut ∧
      (conservativeEpisode.afterDelivered belowTcb 1460 0 false).m_prrDelivered < 2147483648 ∧
      conservativeEpisode.m_prrOut < 2147483648 ∧ belowTcb.m_ssThresh < 2147483648 ∧
      ((conservativeEpisode.DoRecovery x86Indefinite belowTcb 1460 0 false).2.m_cWnd : Int) =
        (belowTcb.m_bytesInFlight : Int) +
          max 0 (min
            (((conservativeEpisode.afterDelivered belowTcb 1460 0 false).m_prrDelivered : Int)
              - (conservativeEpisode.m_prrOut : Int))
            ((belowTcb.m_ssThresh : Int) - (belowTcb.m_bytesInFlight : Int))) :=
  ⟨rfl, by decide, by decide, by decide, by decide, by decide,
    DoRecovery_crb_cwnd x86Indefinite conservativeEpisode belowTcb 1460 0 false rfl
      (by decide) (by decide) (by decide) (by decide) (by decide)⟩

/-- C7: `ExitRecovery` leaves `cwnd = ssthresh` and `cwndInflated = ssthresh` and changes
neither `ssthresh`, `bytesInFlight`, `segmentSize` nor the policy object. -/
theorem ExitRecovery_sets_cwnd_to_ssthresh (self : PrrRecovery) (tcb : TcpSocketState) :
    (self.ExitRecovery tcb).2.m_cWnd = tcb.m_ssThresh ∧
      (self.ExitRecovery tcb).2.m_cWndInfl = tcb.m_ssThresh ∧
      (self.ExitRecovery tcb).2.m_ssThresh = tcb.m_ssThresh ∧
      (self.ExitRecovery tcb).2.m_bytesInFlight = tcb.m_bytesInFlight ∧
      (self.ExitRecovery tcb).2.m_segmentSize = tcb.m_segmentSize ∧
      (self.ExitRecovery tcb).1 = self :=
  ⟨rfl, rfl, rfl, rfl, rfl, rfl⟩

/-- C8: `EnterRecovery` stops at its assertion exactly when `isSackEnabled` is false: with
`false` it stops with the policy object and the congestion state as they were before the
call, with `true` it returns (with the result of the step `DoRecovery (0, 0, false)`). -/
theorem EnterRecovery_aborts_iff_sack_disabled (ub : Dbl → Int) (self : PrrRecovery)
    (tcb : TcpSocketState) (dupAckCount unAckDataCount : Nat) (isSackEnabled : Bool) :
    ((∃ s, PrrRecovery.EnterRecovery ub self tcb dupAckCount isSackEnabled unAckDataCount
        = Outcome.aborted s) ↔ isSackEnabled = false) ∧
      PrrRecovery.EnterRecovery ub self tcb dupAckCount false unAckDataCount
        = Outcome.aborted (self, tcb) ∧
      ∃ s, PrrRecovery.EnterRecovery ub self tcb dupAckCount true unAckDataCount
        = Outcome.returned s := by
  refine ⟨?_, rfl, _, rfl⟩
  cases isSackEnabled
  · exact ⟨fun _ => rfl, fun _ => ⟨_, rfl⟩⟩
  · constructor
    · rintro ⟨s, hs⟩
      simp [PrrRecovery.EnterRecovery, NS_ASSERT_MSG] at hs
    · intro h
      exact absurd h (by decide)

/-- C9, counterexample: after `EnterRecovery` on a new object, two calls
`UpdateBytesSent (4294967295)` take `prrOut` from 4294967295 down to 4294967294 (the
`uint32_t` counter wraps), and after an ack with 1460 sacked bytes an ack with no acked and
no sacked byte takes `prrDelivered` from 1460 down to 0 (the negative sum is not clamped). -/
theorem episode_counters_can_decrease :
    (Call.updateBytesSent 4294967295).valid ∧ (Call.doRecovery scenarioTcb 0 1460 false).valid ∧
      (Call.doRecovery scenarioTcb 0 0 false).valid ∧
      PrrRecovery.EnterRecovery x86Indefinite PrrRecovery.init scenarioTcb 3 true 21900
        = Outcome.returned
            (episodeStart, { scenarioTcb with m_cWnd := 23360, m_cWndInfl := 23360 }) ∧
      (runCalls x86Indefinite episodeStart [Call.updateBytesSent 4294967295]).m_prrOut
        = 4294967295 ∧
      (Call.apply x86Indefinite
          (runCalls x86Indefinite episodeStart [Call.updateBytesSent 4294967295])
          (Call.updateBytesSent 4294967295)).m_prrOut = 4294967294 ∧
      (runCalls x86Indefinite episodeStart [Call.doRecovery scenarioTcb 0 1460 false]).m_prrDelivered
        = 1460 ∧
      (Call.apply x86Indefinite
          (runCalls x86Indefinite episodeStart [Call.doRecovery scenarioTcb 0 1460 false])
          (Call.doRecovery scenarioTcb 0 0 false)).m_prrDelivered = 0 := by
  decide

/-- C9, amended: at every point of an episode (after `EnterRecovery` and any sequence of
`DoRecovery` and `UpdateBytesSent` calls), a further call leaves `prrDelivered` and `prrOut`
greater than or equal to their values before the call, provided the call is in range:
for `UpdateBytesSent`, `prrOut + bytesSent < 2^32`; for `DoRecovery`, the signed sum
`lastAckedBytes + (lastSackedBytes - previousSackedBytes)` is not negative and
`prrDelivered` plus that sum is below `2^32`. -/
theorem episode_counters_monotone (ub : Dbl → Int) (self : PrrRecovery) (tcb : TcpSocketState)
    (dupAckCount unAckDataCount : Nat) (calls : List Call) (c : Call)
    (s : PrrRecovery × TcpSocketState)
    (hEnter : PrrRecovery.EnterRecovery ub self tcb dupAckCount true unAckDataCount
      = Outcome.returned s)
    (hc : c.inRange (runCalls ub s.1 calls)) :
    (runCalls ub s.1 calls).m_prrDelivered ≤ (c.apply ub (runCalls ub s.1 calls)).m_prrDelivered ∧
      (runCalls ub s.1 calls).m_prrOut ≤ (c.apply ub (runCalls ub s.1 calls)).m_prrOut := by
  apply step_monotone ub _ c _ hc
  rw [runCalls_isSackEnabled]
  rw [EnterRecovery_returned] at hEnter
  injection hEnter with hs
  rw [← hs, DoRecovery_fst, afterDelivered_isSackEnabled]

/-- Witness of C9: in the scenario of the spec, 1460 bytes are sent and then an ack of 2920
bytes arrives. -/
theorem episode_counters_monotone_witness :
    PrrRecovery.EnterRecovery x86Indefinite PrrRecovery.init scenarioTcb 3 true 21900
        = Outcome.returned
            (episodeStart, { scenarioTcb with m_cWnd := 23360, m_cWndInfl := 23360 }) ∧
      (Call.doRecovery scenarioTcb 2920 0 false).inRange
        (runCalls x86Indefinite episodeStart [Call.updateBytesSent 1460]) ∧
      (runCalls x86Indefinite episodeStart [Call.updateBytesSent 1460]).m_prrDelivered ≤
        ((Call.doRecovery scenarioTcb 2920 0 false).apply x86Indefinite
          (runCalls x86Indefinite episodeStart [Call.updateBytesSent 1460])).m_prrDelivered ∧
      (runCalls x86Indefinite episodeStart [Call.updateBytesSent 1460]).m_prrOut ≤
        ((Call.doRecovery scenarioTcb 2920 0 false).apply x86Indefinite
          (runCalls x86Indefinite episodeStart [Call.updateBytesSent 1460])).m_prrOut :=
  ⟨by decide, by decide,
    episode_counters_monotone x86Indefinite PrrRecovery.init scenarioTcb 3 21900
      [Call.updateBytesSent 1460] (Call.doRecovery scenarioTcb 2920 0 false)
      (episodeStart, { scenarioTcb with m_cWnd := 23360, m_cWndInfl := 23360 })
      (by decide) (by decide)⟩

/-- C10, counterexample: with `segmentSize = 2^31` (and `ssthresh = 14600`,
`bytesInFlight = 21900`, `unAckDataCount = 21900`) `EnterRecovery` on a new object leaves
`cwnd = 21900 = bytesInFlight`, not `bytesInFlight + segmentSize`: `(int) m_segmentSize` is
negative on line 133 and forces nothing. -/
theorem EnterRecovery_huge_segment :
    hugeSegmentTcb.valid ∧ 0 < hugeSegmentTcb.m_segmentSize ∧
      PrrRecovery.EnterRecovery x86Indefinite PrrRecovery.init hugeSegmentTcb 3 true 21900
        = Outcome.returned
            ({ PrrRecovery.init with m_recoveryFlightSize := 21900 },
             { hugeSegmentTcb with m_cWnd := 21900, m_cWndInfl := 21900 }) ∧
      (21900 : Nat) ≠ hugeSegmentTcb.m_bytesInFlight + hugeSegmentTcb.m_segmentSize ∧
      (21900 : Nat) ≠
        (hugeSegmentTcb.m_bytesInFlight + hugeSegmentTcb.m_segmentSize) % 4294967296 := by
  decide

/-- C10, amended: for a new policy object (all counters 0) in either mode and every
congestion state with `0 < segmentSize < 2^31`, `EnterRecovery` with `isSackEnabled = true`
and `unAckDataCount > 0` returns with `cwnd = cwndInflated = (bytesInFlight + segmentSize)
mod 2^32` and `recoveryFlightSize = unAckDataCount`. -/
theorem EnterRecovery_fresh (ub : Dbl → Int) (mode : ReductionBound_t) (tcb : TcpSocketState)
    (dupAckCount unAckDataCount : Nat)
    (_hseg0 : 0 < tcb.m_segmentSize) (hseg : tcb.m_segmentSize < 2147483648)
    (hun : 0 < unAckDataCount) :
    ∃ s, PrrRecovery.EnterRecovery ub { PrrRecovery.init with m_reductionBoundMode := mode } tcb
          dupAckCount true unAckDataCount = Outcome.returned s ∧
      s.2.m_cWnd = (tcb.m_bytesInFlight + tcb.m_segmentSize) % 4294967296 ∧
      s.2.m_cWndInfl = (tcb.m_bytesInFlight + tcb.m_segmentSize) % 4294967296 ∧
      s.1.m_recoveryFlightSize = unAckDataCount := by
  have hc : (PrrRecovery.DoRecovery ub
        { m_prrDelivered := 0
          m_prrOut := 0
          m_recoveryFlightSize := unAckDataCount
          m_isSackEnabled := true
          m_dupAckCount := 0
          m_previousSackedBytes := 0
          m_reductionBoundMode := mode } tcb 0 0 false).2.m_cWnd
      = (tcb.m_bytesInFlight + tcb.m_segmentSize) % 4294967296 := by
    rw [DoRecovery_cWnd, fresh_afterDelivered, lastDeliveredBytes_sack _ _ _ _ _ rfl]
    simp only [Nat.cast_zero, toUInt32_zero]
    rw [fresh_forcedSendCount ub mode tcb unAckDataCount hseg hun]
    unfold u32addInt toUInt32
    omega
  refine ⟨_, EnterRecovery_returned ub _ tcb dupAckCount unAckDataCount, hc, hc, ?_⟩
  rw [DoRecovery_fst]
  exact congrArg PrrRecovery.m_recoveryFlightSize (fresh_afterDelivered mode tcb unAckDataCount)

/-- Witness of C10: the scenario of the spec, `segmentSize = 1460`, `ssthresh = 14600`,
`bytesInFlight = 21900`, `unAckDataCount = 21900`; the resulting `cwnd` is 23360. -/
theorem EnterRecovery_fresh_witness :
    0 < scenarioTcb.m_segmentSize ∧ scenarioTcb.m_segmentSize < 2147483648 ∧ 0 < 21900 ∧
      ∃ s, PrrRecovery.EnterRecovery x86Indefinite
            { PrrRecovery.init with m_reductionBoundMode := ReductionBound_t.SSRB } scenarioTcb
            3 true 21900 = Outcome.returned s ∧
        s.2.m_cWnd = 23360 ∧ s.2.m_cWndInfl = 23360 ∧ s.1.m_recoveryFlightSize = 21900 :=
  ⟨by decide, by decide, by decide,
    EnterRecovery_fresh x86Indefinite ReductionBound_t.SSRB scenarioTcb 3 21900 (by decide)
      (by decide) (by decide)⟩

/-- C11: from a new policy object in `CRB` mode with `segmentSize = 1460`,
`ssthresh = 14600`, `bytesInFlight = 21900`: after `EnterRecovery` (SACK enabled,
`unAckDataCount = 21900`), `UpdateBytesSent (1460)`, `bytesInFlight` changed to 19040 and
`DoRecovery (2920, 0, false)`, the policy has `prrDelivered = 2920`, the send budget is
487 and `cwnd = cwndInflated = 19527`. -/
theorem scenario_second_step :
    PrrRecovery.init.m_reductionBoundMode = ReductionBound_t.CRB ∧
      PrrRecovery.EnterRecovery x86Indefinite PrrRecovery.init scenarioTcb 3 true 21900
        = Outcome.returned
            (episodeStart, { scenarioTcb with m_cWnd := 23360, m_cWndInfl := 23360 }) ∧
      scenarioTcbAfterAck
        = { scenarioTcb with m_cWnd := 23360, m_cWndInfl := 23360, m_bytesInFlight := 19040 } ∧
      ((episodeStart.UpdateBytesSent 1460).DoRecovery x86Indefinite scenarioTcbAfterAck 2920 0
          false).1.m_prrDelivered = 2920 ∧
      ((episodeStart.UpdateBytesSent 1460).afterDelivered scenarioTcbAfterAck 2920 0
          false).forcedSendCount x86Indefinite scenarioTcbAfterAck
          ((episodeStart.UpdateBytesSent 1460).lastDeliveredBytes scenarioTcbAfterAck 2920 0
            false) = 487 ∧
      ((episodeStart.UpdateBytesSent 1460).DoRecovery x86Indefinite scenarioTcbAfterAck 2920 0
          false).2.m_cWnd = 19527 ∧
      ((episodeStart.UpdateBytesSent 1460).DoRecovery x86Indefinite scenarioTcbAfterAck 2920 0
          false).2.m_cWndInfl = 19527 ∧
      (19040 : Nat) + 487 = 19527 := by
  decide

/-- C12: `UpdateBytesSent (bytesSent)` sets `prrOut` to `(prrOut + bytesSent) mod 2^32` and
changes no other field of the policy; `DoRecovery` and `ExitRecovery` leave `prrOut`
unchanged for every input, and so does `Fork`, in the original and in the new object. -/
theorem prrOut_changes_only_in_UpdateBytesSent (ub : Dbl → Int) (self : PrrRecovery)
    (tcb : TcpSocketState) (bytesSent lastAckedBytes lastSackedBytes : Nat) (isDupack : Bool) :
    self.UpdateBytesSent bytesSent
        = { self with m_prrOut := (self.m_prrOut + bytesSent) % 4294967296 } ∧
      (self.DoRecovery ub tcb lastAckedBytes lastSackedBytes isDupack).1.m_prrOut
        = self.m_prrOut ∧
      (self.ExitRecovery tcb).1.m_prrOut = self.m_prrOut ∧
      self.Fork.1.m_prrOut = self.m_prrOut ∧ self.Fork.2.m_prrOut = self.m_prrOut :=
  ⟨rfl, afterDelivered_prrOut self tcb lastAckedBytes lastSackedBytes isDupack, rfl, rfl, rfl⟩

/-- C14: for `ClassicRecovery`, `EnterRecovery` sets `cwnd = ssthresh` and changes no other
field of the congestion state, and `DoRecovery` and `ExitRecovery` leave the whole
congestion state unchanged. -/
theorem ClassicRecovery_frame (tcb : TcpSocketState) :
    (ClassicRecovery.EnterRecovery tcb).m_cWnd = tcb.m_ssThresh ∧
      (ClassicRecovery.EnterRecovery tcb).m_ssThresh = tcb.m_ssThresh ∧
      (ClassicRecovery.EnterRecovery tcb).m_bytesInFlight = tcb.m_bytesInFlight ∧
      (ClassicRecovery.EnterRecovery tcb).m_segmentSize = tcb.m_segmentSize ∧
      (ClassicRecovery.EnterRecovery tcb).m_cWndInfl = tcb.m_cWndInfl ∧
      ClassicRecovery.DoRecovery tcb = tcb ∧
      ClassicRecovery.ExitRecovery tcb = tcb :=
  ⟨rfl, rfl, rfl, rfl, rfl, rfl, rfl⟩

/-- C13, counterexample: in non-SACK mode with `segmentSize = 0` (so that
`k * segmentSize < 2^32` for every `k`), `k = 2^32` calls with `isDupack = true` starting
from `dupAckCount = 0` leave `dupAckCount = 0`, not `k`: the `uint32_t` counter wraps. -/
theorem dupAckCount_wraps :
    nonSackStart.m_isSackEnabled = false ∧ nonSackStart.m_dupAckCount = 0 ∧
      4294967296 * zeroSegmentTcb.m_segmentSize < 4294967296 ∧
      (runCalls x86Indefinite nonSackStart
          (List.replicate 4294967296 (Call.doRecovery zeroSegmentTcb 0 0 true))).m_dupAckCount
        = 0 := by
  refine ⟨rfl, rfl, by decide, ?_⟩
  have h := (dupAck_run x86Indefinite 0
    (List.replicate 4294967296 (Call.doRecovery zeroSegmentTcb 0 0 true)) nonSackStart rfl
    (by decide) (by decide)
    (fun c hc => by rw [List.eq_of_mem_replicate hc]; exact ⟨rfl, rfl⟩)).2.1
  rw [h, List.length_replicate]
  rfl

/-- C13, amended: on the non-SACK path (`sackEnabled = false`, `dupAckCount = 0`), for
every `k < 2^32` and `segmentSize` with `k * segmentSize < 2^32`: `k` calls with
`isDupack = true` add `k * segmentSize` to `prrDelivered` (modulo `2^32`; the statement
holds for every run of such calls, hence each call adds `segmentSize`) and leave
`dupAckCount = k`; a following call with `isDupack = false` and `lastAckedBytes = A` adds
`max 0 (A - k * segmentSize)` to `prrDelivered` (modulo `2^32`) and resets `dupAckCount`
to 0. -/
theorem nonSack_dupAcks_then_ack (ub : Dbl → Int) (self : PrrRecovery) (segmentSize : Nat)
    (calls : List Call) (tcb : TcpSocketState) (lastAckedBytes lastSackedBytes : Nat)
    (hsack : self.m_isSackEnabled = false) (hdup : self.m_dupAckCount = 0)
    (hp : IsU32 self.m_prrDelivered)
    (hcalls : ∀ c ∈ calls, c.isDupAckWith segmentSize)
    (hk : calls.length < 4294967296)
    (hks : calls.length * segmentSize < 4294967296)
    (hseg : tcb.m_segmentSize = segmentSize) :
    (runCalls ub self calls).m_dupAckCount = calls.length ∧
      (runCalls ub self calls).m_prrDelivered
        = (self.m_prrDelivered + calls.length * segmentSize) % 4294967296 ∧
      ((runCalls ub self calls).DoRecovery ub tcb lastAckedBytes lastSackedBytes
          false).1.m_prrDelivered
        = ((runCalls ub self calls).m_prrDelivered
            + (max 0 ((lastAckedBytes : Int) - ((calls.length * segmentSize : Nat) : Int))).toNat)
          % 4294967296 ∧
      ((runCalls ub self calls).DoRecovery ub tcb lastAckedBytes lastSackedBytes
          false).1.m_dupAckCount = 0 := by
  obtain ⟨h1, h2, h3⟩ := dupAck_run ub segmentSize calls self hsack (by rw [hdup]; decide) hp hcalls
  obtain ⟨k1, k2⟩ := nonSack_ack_step ub (runCalls ub self calls) tcb lastAckedBytes
    lastSackedBytes h1
  have h2' : (runCalls ub self calls).m_dupAckCount = calls.length := by
    rw [h2, hdup]
    omega
  refine ⟨h2', h3, ?_, k1⟩
  rw [k2, h2', hseg]
  congr 2
  omega

/-- Witness of C13: three duplicate acks on the congestion state of the spec's scenario,
then an ack of 5840 bytes. -/
theorem nonSack_dupAcks_then_ack_witness :
    nonSackStart.m_isSackEnabled = false ∧ nonSackStart.m_dupAckCount = 0 ∧
      IsU32 nonSackStart.m_prrDelivered ∧
      (∀ c ∈ [Call.doRecovery scenarioTcb 0 0 true, Call.doRecovery scenarioTcb 0 0 true,
          Call.doRecovery scenarioTcb 0 0 true], c.isDupAckWith 1460) ∧
      (runCalls x86Indefinite nonSackStart
          [Call.doRecovery scenarioTcb 0 0 true, Call.doRecovery scenarioTcb 0 0 true,
            Call.doRecovery scenarioTcb 0 0 true]).m_dupAckCount = 3 ∧
      (runCalls x86Indefinite nonSackStart
          [Call.doRecovery scenarioTcb 0 0 true, Call.doRecovery scenarioTcb 0 0 true,
            Call.doRecovery scenarioTcb 0 0 true]).m_prrDelivered = 4380 ∧
      ((runCalls x86Indefinite nonSackStart
          [Call.doRecovery scenarioTcb 0 0 true, Call.doRecovery scenarioTcb 0 0 true,
            Call.doRecovery scenarioTcb 0 0 true]).DoRecovery x86Indefinite scenarioTcb 5840 0
          false).1.m_prrDelivered = 5840 ∧
      ((runCalls x86Indefinite nonSackStart
          [Call.doRecovery scenarioTcb 0 0 true, Call.doRecovery scenarioTcb 0 0 true,
            Call.doRecovery scenarioTcb 0 0 true]).DoRecovery x86Indefinite scenarioTcb 5840 0
          false).1.m_dupAckCount = 0 :=
  have hcalls : ∀ c ∈ [Call.doRecovery scenarioTcb 0 0 true,
      Call.doRecovery scenarioTcb 0 0 true, Call.doRecovery scenarioTcb 0 0 true],
      c.isDupAckWith 1460 := by
    intro c hc
    simp only [List.mem_cons, List.mem_singleton, List.not_mem_nil, or_false, or_self] at hc
    rw [hc]
    exact ⟨rfl, rfl⟩
  ⟨rfl, rfl, by decide, hcalls,
    nonSack_dupAcks_then_ack x86Indefinite nonSackStart 1460
      [Call.doRecovery scenarioTcb 0 0 true, Call.doRecovery scenarioTcb 0 0 true,
        Call.doRecovery scenarioTcb 0 0 true] scenarioTcb 5840 0 rfl rfl (by decide) hcalls
      (by decide) (by decide) rfl⟩

/-- C15: a policy object constructed without an explicit configuration has
`reductionBoundMode = SSRB`, so a `DoRecovery` call on it at or below `ssthresh` uses the
`SSRB` limit of line 127 and not the `CRB` limit of line 123; on the state `belowTcb` an
ack of 1460 bytes gives `cwnd = 12920`, where an object configured with `CRB` gives
11460. -/
theorem CreateObject_default_mode (tcb : TcpSocketState)
    (lastAckedBytes lastSackedBytes : Nat) (isDupack : Bool) :
    (CreateObject none).m_reductionBoundMode = ReductionBound_t.SSRB ∧
      ((CreateObject none).afterDelivered tcb lastAckedBytes lastSackedBytes isDupack).limit tcb
          ((CreateObject none).lastDeliveredBytes tcb lastAckedBytes lastSackedBytes isDupack)
        = toInt32 (u32add
            (max
              (u32sub
                ((CreateObject none).afterDelivered tcb lastAckedBytes lastSackedBytes
                  isDupack).m_prrDelivered
                ((CreateObject none).afterDelivered tcb lastAckedBytes lastSackedBytes
                  isDupack).m_prrOut)
              ((CreateObject none).lastDeliveredBytes tcb lastAckedBytes lastSackedBytes
                isDupack))
            tcb.m_segmentSize) ∧
      (CreateObject (some ReductionBound_t.CRB)).m_reductionBoundMode = ReductionBound_t.CRB ∧
      ((CreateObject none).DoRecovery x86Indefinite belowTcb 1460 0 false).2.m_cWnd = 12920 ∧
      ((CreateObject (some ReductionBound_t.CRB)).DoRecovery x86Indefinite belowTcb 1460 0
          false).2.m_cWnd = 11460 := by
  refine ⟨rfl, ?_, rfl, by decide, by decide⟩
  unfold PrrRecovery.limit
  rw [afterDelivered_mode]
  rfl

/-- C16: `Fork`, called through a pointer to an object, returns a pointer to a new object
at an address that was not in use and differs from the address of the original; the seven
fields of the new object equal those of the original; a method called through the new
pointer changes the new object; and no sequence of operations called through the new
pointer changes any field of the original. -/
theorem Fork_clone_independent (ub : Dbl → Int) (h : Heap) (this : Ptr) (self : PrrRecovery)
    (ops : List Op) (hthis : h.read this = some self) :
    ∃ h1 clone c, h.Fork this = some (h1, clone) ∧ clone ≠ this ∧ h.read clone = none ∧
      h1.read clone = some c ∧ c = self.Fork.2 ∧
      c.m_prrDelivered = self.m_prrDelivered ∧
      c.m_prrOut = self.m_prrOut ∧
      c.m_recoveryFlightSize = self.m_recoveryFlightSize ∧
      c.m_isSackEnabled = self.m_isSackEnabled ∧
      c.m_dupAckCount = self.m_dupAckCount ∧
      c.m_previousSackedBytes = self.m_previousSackedBytes ∧
      c.m_reductionBoundMode = self.m_reductionBoundMode ∧
      h1.read this = some self ∧
      (∀ op, op ≠ Op.fork →
        (h1.call ub clone op).state.read clone = some (op.run ub c).state) ∧
      (h1.runOn ub clone ops).state.read this = some self := by
  have hlt : this < h.cells.length := by
    unfold Heap.read at hthis
    exact (List.getElem?_eq_some.mp hthis).1
  have hne : h.cells.length ≠ this := Nat.ne_of_gt hlt
  have h1this : ({ cells := h.cells ++ [PrrRecovery.copy self] } : Heap).read this
      = some self := by
    show (h.cells ++ [PrrRecovery.copy self])[this]? = some self
    rw [List.getElem?_append_left hlt]
    exact hthis
  have h1clone : ({ cells := h.cells ++ [PrrRecovery.copy self] } : Heap).read h.cells.length
      = some (PrrRecovery.copy self) := by
    show (h.cells ++ [PrrRecovery.copy self])[h.cells.length]? = some (PrrRecovery.copy self)
    exact List.getElem?_concat_length _ _
  refine ⟨{ cells := h.cells ++ [PrrRecovery.copy self] }, h.cells.length,
    PrrRecovery.copy self, ?_, hne, ?_, h1clone, rfl, rfl, rfl, rfl, rfl, rfl, rfl, rfl,
    h1this, ?_, ?_⟩
  · simp only [Heap.Fork, Heap.CopyObject, hthis]
  · show h.cells[h.cells.length]? = none
    exact List.getElem?_eq_none (Nat.le_refl _)
  · intro op hop
    exact Heap.call_self ub _ h.cells.length op (PrrRecovery.copy self) hop h1clone
  · exact Heap.runOn_frame ub ops _ h.cells.length this self (Ne.symm hne) h1this

/-- Witness of C16: the object `midEpisode` at address 0 is forked to address 1; an ack,
an `EnterRecovery` and a transmission through the new pointer change the object at
address 1 and leave the object at address 0 as it was. -/
theorem Fork_clone_independent_witness :
    oneObject.read 0 = some midEpisode ∧
      oneObject.Fork 0 = some ({ cells := [midEpisode, midEpisode] }, 1) ∧
      Heap.runOn x86Indefinite { cells := [midEpisode, midEpisode] } 1
          [Op.doRecovery scenarioTcb 2920 0 false, Op.enterRecovery scenarioTcb 3 true 30000,
            Op.updateBytesSent 1460]
        = Outcome.returned
            { cells := [midEpisode,
                { midEpisode with
                  m_prrDelivered := 0
                  m_prrOut := 1460
                  m_recoveryFlightSize := 30000
                  m_previousSackedBytes := 0 }] } ∧
      ∃ h1 clone c, oneObject.Fork 0 = some (h1, clone) ∧ clone ≠ 0 ∧
        oneObject.read clone = none ∧
        h1.read clone = some c ∧ c = midEpisode.Fork.2 ∧
        c.m_prrDelivered = midEpisode.m_prrDelivered ∧
        c.m_prrOut = midEpisode.m_prrOut ∧
        c.m_recoveryFlightSize = midEpisode.m_recoveryFlightSize ∧
        c.m_isSackEnabled = midEpisode.m_isSackEnabled ∧
        c.m_dupAckCount = midEpisode.m_dupAckCount ∧
        c.m_previousSackedBytes = midEpisode.m_previousSackedBytes ∧
        c.m_reductionBoundMode = midEpisode.m_reductionBoundMode ∧
        h1.read 0 = some midEpisode ∧
        (∀ op, op ≠ Op.fork →
          (h1.call x86Indefinite clone op).state.read clone
            = some (op.run x86Indefinite c).state) ∧
        (h1.runOn x86Indefinite clone
            [Op.doRecovery scenarioTcb 2920 0 false, Op.enterRecovery scenarioTcb 3 true 30000,
              Op.updateBytesSent 1460]).state.read 0 = some midEpisode :=
  ⟨by decide, by decide, by decide,
    Fork_clone_independent x86Indefinite oneObject 0 midEpisode
      [Op.doRecovery scenarioTcb 2920 0 false, Op.enterRecovery scenarioTcb 3 true 30000,
        Op.updateBytesSent 1460] (by decide)⟩

/-- C17: a `DoRecovery` call with `bytesInFlight <= ssthresh`, `prrOut > 0` and
`ssthresh < 2^31` leaves a budget of at most `ssthresh - bytesInFlight` and
`cwnd <= ssthresh`, in either mode and for every ack. -/
theorem DoRecovery_below_cwnd_le_ssthresh (ub : Dbl → Int) (self : PrrRecovery)
    (tcb : TcpSocketState) (lastAckedBytes lastSackedBytes : Nat) (isDupack : Bool)
    (hbelow : tcb.m_bytesInFlight ≤ tcb.m_ssThresh) (hout : 0 < self.m_prrOut)
    (hss : tcb.m_ssThresh < 2147483648) :
    (self.afterDelivered tcb lastAckedBytes lastSackedBytes isDupack).forcedSendCount ub tcb
        (self.lastDeliveredBytes tcb lastAckedBytes lastSackedBytes isDupack)
        ≤ (tcb.m_ssThresh : Int) - (tcb.m_bytesInFlight : Int) ∧
      (self.DoRecovery ub tcb lastAckedBytes lastSackedBytes isDupack).2.m_cWnd
        ≤ tcb.m_ssThresh := by
  rw [DoRecovery_cWnd]
  unfold PrrRecovery.forcedSendCount PrrRecovery.sendCount
  rw [afterDelivered_prrOut]
  have hnb : ¬ tcb.m_bytesInFlight > tcb.m_ssThresh := by omega
  have hne : self.m_prrOut ≠ 0 := by omega
  simp only [hnb, hne, if_false, if_true, ne_eq, not_false_eq_true]
  generalize (self.afterDelivered tcb lastAckedBytes lastSackedBytes isDupack).limit tcb
    (self.lastDeliveredBytes tcb lastAckedBytes lastSackedBytes isDupack) = limit
  have hx : toInt32 (u32sub tcb.m_ssThresh tcb.m_bytesInFlight)
      = (tcb.m_ssThresh : Int) - tcb.m_bytesInFlight := by
    unfold toInt32 u32sub toUInt32
    omega
  rw [hx]
  have hhi : max (min limit ((tcb.m_ssThresh : Int) - tcb.m_bytesInFlight)) 0
      ≤ (tcb.m_ssThresh : Int) - tcb.m_bytesInFlight :=
    max_le (min_le_right _ _) (by omega)
  have hlo : 0 ≤ max (min limit ((tcb.m_ssThresh : Int) - tcb.m_bytesInFlight)) 0 :=
    le_max_right _ _
  refine ⟨hhi, ?_⟩
  unfold u32addInt
  have h := toUInt32_of_range
    ((tcb.m_bytesInFlight : Int) + max (min limit ((tcb.m_ssThresh : Int) - tcb.m_bytesInFlight)) 0)
    (by omega) (by omega)
  omega

/-- Witness of C17: in `SSRB` mode an ack of 8000 bytes below `ssthresh`; the cap of
`ssthresh - bytesInFlight = 4600` bytes binds. -/
theorem DoRecovery_below_cwnd_le_ssthresh_witness :
    belowTcb.m_bytesInFlight ≤ belowTcb.m_ssThresh ∧ 0 < sentAhead.m_prrOut ∧
      belowTcb.m_ssThresh < 2147483648 ∧
      (sentAhead.afterDelivered belowTcb 8000 0 false).forcedSendCount x86Indefinite belowTcb
          (sentAhead.lastDeliveredBytes belowTcb 8000 0 false)
          ≤ (belowTcb.m_ssThresh : Int) - (belowTcb.m_bytesInFlight : Int) ∧
        (sentAhead.DoRecovery x86Indefinite belowTcb 8000 0 false).2.m_cWnd
          ≤ belowTcb.m_ssThresh :=
  ⟨by decide, by decide, by decide,
    DoRecovery_below_cwnd_le_ssthresh x86Indefinite sentAhead belowTcb 8000 0 false (by decide)
      (by decide) (by decide)⟩

/-- C18, counterexample: with `segmentSize = 2^31`, `prrOut = 0`, `bytesInFlight = 10000`
below `ssthresh = 14600` and an ack of `2^32 - 10` bytes in `CRB` mode, `limit` is -10,
`(int) m_segmentSize` is `-2^31`, the budget is -10 and `cwnd = 9990 < bytesInFlight`. -/
theorem DoRecovery_negative_budget :
    episodeStart.valid ∧ hugeSegmentBelowTcb.valid ∧ IsU32 4294967286 ∧
      hugeSegmentBelowTcb.m_bytesInFlight ≤ hugeSegmentBelowTcb.m_ssThresh ∧
      (episodeStart.afterDelivered hugeSegmentBelowTcb 4294967286 0 false).forcedSendCount
          x86Indefinite hugeSegmentBelowTcb
          (episodeStart.lastDeliveredBytes hugeSegmentBelowTcb 4294967286 0 false) = -10 ∧
      (episodeStart.DoRecovery x86Indefinite hugeSegmentBelowTcb 4294967286 0 false).2.m_cWnd
        = 9990 ∧
      (9990 : Nat) < hugeSegmentBelowTcb.m_bytesInFlight := by
  decide

/-- C18, amended: after a `DoRecovery` call with `prrOut > 0` or `segmentSize < 2^31`, on
either path, the send budget is not negative: `cwnd >= bytesInFlight` whenever
`bytesInFlight` plus the budget is below `2^32`, and `cwndInflated = cwnd`. -/
theorem DoRecovery_budget_nonneg (ub : Dbl → Int) (self : PrrRecovery) (tcb : TcpSocketState)
    (lastAckedBytes lastSackedBytes : Nat) (isDupack : Bool)
    (hfloor : self.m_prrOut ≠ 0 ∨ tcb.m_segmentSize < 2147483648)
    (hsum : (tcb.m_bytesInFlight : Int) +
        (self.afterDelivered tcb lastAckedBytes lastSackedBytes isDupack).forcedSendCount ub tcb
          (self.lastDeliveredBytes tcb lastAckedBytes lastSackedBytes isDupack)
        < 4294967296) :
    0 ≤ (self.afterDelivered tcb lastAckedBytes lastSackedBytes isDupack).forcedSendCount ub tcb
          (self.lastDeliveredBytes tcb lastAckedBytes lastSackedBytes isDupack) ∧
      tcb.m_bytesInFlight
        ≤ (self.DoRecovery ub tcb lastAckedBytes lastSackedBytes isDupack).2.m_cWnd ∧
      (self.DoRecovery ub tcb lastAckedBytes lastSackedBytes isDupack).2.m_cWndInfl
        = (self.DoRecovery ub tcb lastAckedBytes lastSackedBytes isDupack).2.m_cWnd := by
  have h0 := forcedSendCount_nonneg ub
    (self.afterDelivered tcb lastAckedBytes lastSackedBytes isDupack) tcb
    (self.lastDeliveredBytes tcb lastAckedBytes lastSackedBytes isDupack)
    (by rw [afterDelivered_prrOut]; exact hfloor)
  refine ⟨h0, ?_, rfl⟩
  rw [DoRecovery_cWnd]
  generalize (self.afterDelivered tcb lastAckedBytes lastSackedBytes isDupack).forcedSendCount
    ub tcb (self.lastDeliveredBytes tcb lastAckedBytes lastSackedBytes isDupack) = budget
    at hsum h0
  unfold u32addInt
  have h := toUInt32_of_range ((tcb.m_bytesInFlight : Int) + budget) (by omega) (by omega)
  omega

/-- Witness of C18: an ack of 1460 bytes above `ssthresh` whose computed budget is
negative and is raised to 0. -/
theorem DoRecovery_budget_nonneg_witness :
    (largeEpisode.m_prrOut ≠ 0 ∨ largeTcb.m_segmentSize < 2147483648) ∧
      (largeTcb.m_bytesInFlight : Int) +
        (largeEpisode.afterDelivered largeTcb 1460 0 false).forcedSendCount x86Indefinite
          largeTcb (largeEpisode.lastDeliveredBytes largeTcb 1460 0 false) < 4294967296 ∧
      0 ≤ (largeEpisode.afterDelivered largeTcb 1460 0 false).forcedSendCount x86Indefinite
          largeTcb (largeEpisode.lastDeliveredBytes largeTcb 1460 0 false) ∧
      largeTcb.m_bytesInFlight
        ≤ (largeEpisode.DoRecovery x86Indefinite largeTcb 1460 0 false).2.m_cWnd ∧
      (largeEpisode.DoRecovery x86Indefinite largeTcb 1460 0 false).2.m_cWndInfl
        = (largeEpisode.DoRecovery x86Indefinite largeTcb 1460 0 false).2.m_cWnd :=
  ⟨by decide, by decide,
    DoRecovery_budget_nonneg x86Indefinite largeEpisode largeTcb 1460 0 false (by decide)
      (by decide)⟩

/-- C19: in every state reached from a newly constructed policy object (with or without a
configured mode) through operations
that return (`EnterRecovery`, `DoRecovery`, `UpdateBytesSent`, `ExitRecovery`, `Fork`),
`sackEnabled = true` and `dupAckCount = 0`; hence `lastDeliveredBytes` is the value of the
SACK branch and `DoRecovery` gives the same result for both values of `isDupack`. -/
theorem reachable_sack_enabled (ub : Dbl → Int) (configured : Option ReductionBound_t)
    (ops : List Op) (self : PrrRecovery)
    (hrun : runOps ub (CreateObject configured) ops = Outcome.returned self) :
    self.m_isSackEnabled = true ∧ self.m_dupAckCount = 0 ∧
      ∀ (tcb : TcpSocketState) (lastAckedBytes lastSackedBytes : Nat) (isDupack : Bool),
        self.lastDeliveredBytes tcb lastAckedBytes lastSackedBytes isDupack
            = toUInt32 ((lastAckedBytes : Int) + (lastSackedBytes : Int)
                - (self.m_previousSackedBytes : Int)) ∧
          self.DoRecovery ub tcb lastAckedBytes lastSackedBytes isDupack
            = self.DoRecovery ub tcb lastAckedBytes lastSackedBytes false := by
  obtain ⟨h1, h2⟩ := runOps_invariant ub ops (CreateObject configured) self hrun rfl rfl
  exact ⟨h1, h2, fun tcb a s d =>
    ⟨lastDeliveredBytes_sack self tcb a s d h1, DoRecovery_isDupack_irrelevant ub self tcb a s d h1⟩⟩

/-- Witness of C19: an episode with one ack, one transmission, `ExitRecovery` and a
`Fork`. -/
theorem reachable_sack_enabled_witness :
    runOps x86Indefinite (CreateObject none)
        [Op.enterRecovery scenarioTcb 3 true 21900, Op.doRecovery scenarioTcb 0 1460 true,
          Op.updateBytesSent 1460, Op.exitRecovery scenarioTcb, Op.fork]
      = Outcome.returned { midEpisode with m_prrDelivered := 1460, m_previousSackedBytes := 1460 } ∧
      ({ midEpisode with m_prrDelivered := 1460, m_previousSackedBytes := 1460 }
          : PrrRecovery).m_isSackEnabled = true ∧
      ({ midEpisode with m_prrDelivered := 1460, m_previousSackedBytes := 1460 }
          : PrrRecovery).m_dupAckCount = 0 ∧
      ∀ (tcb : TcpSocketState) (lastAckedBytes lastSackedBytes : Nat) (isDupack : Bool),
        ({ midEpisode with m_prrDelivered := 1460, m_previousSackedBytes := 1460 }
            : PrrRecovery).lastDeliveredBytes tcb lastAckedBytes lastSackedBytes isDupack
            = toUInt32 ((lastAckedBytes : Int) + (lastSackedBytes : Int)
                - ((({ midEpisode with m_prrDelivered := 1460, m_previousSackedBytes := 1460 }
                    : PrrRecovery).m_previousSackedBytes : Nat) : Int)) ∧
          ({ midEpisode with m_prrDelivered := 1460, m_previousSackedBytes := 1460 }
              : PrrRecovery).DoRecovery x86Indefinite tcb lastAckedBytes lastSackedBytes
              isDupack
            = ({ midEpisode with m_prrDelivered := 1460, m_previousSackedBytes := 1460 }
                : PrrRecovery).DoRecovery x86Indefinite tcb lastAckedBytes lastSackedBytes
                false :=
  ⟨by decide,
    reachable_sack_enabled x86Indefinite none
      [Op.enterRecovery scenarioTcb 3 true 21900, Op.doRecovery scenarioTcb 0 1460 true,
        Op.updateBytesSent 1460, Op.exitRecovery scenarioTcb, Op.fork]
      { midEpisode with m_prrDelivered := 1460, m_previousSackedBytes := 1460 } (by decide)⟩

/-- C20: `EnterRecovery` gives the same outcome for any two values of its `dupAckCount`
argument; with SACK enabled it runs `DoRecovery (0, 0, false)` on an object whose
`previousSackedBytes` and `dupAckCount` are still the old ones, and returns with
`previousSackedBytes = 0` (set by line 96 of that step), `dupAckCount` unchanged and
`prrDelivered = (-previousSackedBytes) mod 2^32` computed from the old value. -/
theorem EnterRecovery_ignores_dupAckCount (ub : Dbl → Int) (self : PrrRecovery)
    (tcb : TcpSocketState) (dupAckCount otherDupAckCount unAckDataCount : Nat)
    (isSackEnabled : Bool) :
    PrrRecovery.EnterRecovery ub self tcb dupAckCount isSackEnabled unAckDataCount
        = PrrRecovery.EnterRecovery ub self tcb otherDupAckCount isSackEnabled unAckDataCount ∧
      PrrRecovery.EnterRecovery ub self tcb dupAckCount true unAckDataCount
        = Outcome.returned
            (PrrRecovery.DoRecovery ub
              { m_prrDelivered := 0
                m_prrOut := 0
                m_recoveryFlightSize := unAckDataCount
                m_isSackEnabled := true
                m_dupAckCount := self.m_dupAckCount
                m_previousSackedBytes := self.m_previousSackedBytes
                m_reductionBoundMode := self.m_reductionBoundMode } tcb 0 0 false) ∧
      ∃ s, PrrRecovery.EnterRecovery ub self tcb dupAckCount true unAckDataCount
          = Outcome.returned s ∧
        s.1.m_previousSackedBytes = 0 ∧
        s.1.m_dupAckCount = self.m_dupAckCount ∧
        s.1.m_prrDelivered = toUInt32 (-(self.m_previousSackedBytes : Int)) := by
  refine ⟨rfl, rfl, _, rfl, ?_, ?_, ?_⟩
  · rw [DoRecovery_fst, afterDelivered_previousSackedBytes_sack _ _ _ _ _ rfl]
  · rw [DoRecovery_fst, afterDelivered_dupAckCount_sack _ _ _ _ _ rfl]
  · rw [DoRecovery_fst, afterDelivered_prrDelivered_sack _ _ _ _ _ rfl]
    show u32add 0 (toUInt32 (((0 : Nat) : Int) + ((0 : Nat) : Int)
      - (self.m_previousSackedBytes : Int))) = _
    unfold u32add toUInt32
    omega

end PrrModel
